import Mathlib

/-!
Verification of the sniperBot mint service: a shallow embedding of the
mint dispatcher (src/controllers/mintController.js) and the four chain
executors (src/services/mintSUI.js, src/services/mintSOL.js, and the
unnamed BASE and BSC handlers) together with proofs about the claims of
the specification.

Modelling conventions:
- JavaScript request values are modelled by `JSVal` (numbers as exact
  rationals, a separate NaN marker, strings, booleans, undefined, null).
- Every external SDK / network interaction is an oracle field of an
  environment record; each executor returns its `MintResult` together
  with the ordered list of calls (`Effect`) it performed, so that
  "before any network call" is the statement that the trace holds no
  network effect.
- Balance arithmetic (`balance / LAMPORTS_PER_SOL`, `formatEther`) is
  modelled over `ℚ`; for the integer wei/lamport amounts involved the
  IEEE double comparisons of the source agree with the exact rational
  comparisons.
-/

set_option maxRecDepth 8000

namespace SniperBot

/-- JavaScript values as they appear in the JSON request body. Numbers are
modelled as exact rationals with a separate NaN marker. -/
inductive JSVal where
  | num (q : ℚ)
  | nan
  | str (s : String)
  | jsBool (b : Bool)
  | undef
  | jsNull
deriving Repr, DecidableEq

/-- JavaScript truthiness of a `JSVal` (`!v` is the negation of this). -/
def jsTruthy : JSVal → Bool
  | JSVal.num q => decide (q ≠ 0)
  | JSVal.nan => false
  | JSVal.str s => decide (s ≠ "")
  | JSVal.jsBool b => b
  | JSVal.undef => false
  | JSVal.jsNull => false

/-- Truthiness of an optional string field (`undefined` and `""` are falsy). -/
def optTruthy : Option String → Bool
  | some s => decide (s ≠ "")
  | none => false

/-- Does the list start with the pattern? (`String.startsWith`, stated on
character lists so that it evaluates by kernel reduction.) -/
def strStartsWith (s pat : String) : Bool :=
  pat.toList.isPrefixOf s.toList

/-- Does the list end with the pattern? (`String.endsWith` on character
lists.) -/
def strEndsWith (s pat : String) : Bool :=
  pat.toList.reverse.isPrefixOf s.toList.reverse

/-- A whitespace character in the sense of JavaScript string trimming
(the forms relevant here: space, tab, newline, carriage return, vertical
tab, form feed). -/
def isJsSpace (c : Char) : Bool :=
  c.toNat = 32 || c.toNat = 9 || c.toNat = 10 || c.toNat = 13 || c.toNat = 11 || c.toNat = 12

/-- String trimming on character lists. -/
def listTrim (l : List Char) : List Char :=
  ((l.dropWhile isJsSpace).reverse.dropWhile isJsSpace).reverse

/-- Splits a character list at every dot. -/
def splitDots : List Char → List (List Char)
  | [] => [[]]
  | c :: rest =>
    if c.toNat = 46 then [] :: splitDots rest
    else
      match splitDots rest with
      | [] => [[c]]
      | p :: ps => (c :: p) :: ps

/-- Digits of a decimal numeral, or `none` when the list is empty or holds
a non-digit character. -/
def natOfDigits (l : List Char) : Option Nat :=
  if l.length > 0 && l.all Char.isDigit then
    some (l.foldl (fun a c => a * 10 + (c.toNat - 48)) 0)
  else none

/-- Value of an unsigned decimal literal (`"12"`, `"12.5"`, `".5"`, `"5."`),
or `none` when the list is not such a literal. -/
def decOfString (l : List Char) : Option ℚ :=
  match splitDots l with
  | [ip] => (natOfDigits ip).map (fun n => mkRat n 1)
  | [ip, fp] =>
    if ip.isEmpty && fp.isEmpty then none
    else
      match natOfDigits (if ip.isEmpty then [Char.ofNat 48] else ip),
            natOfDigits (if fp.isEmpty then [Char.ofNat 48] else fp) with
      | some a, some b => some (mkRat ((a : ℤ) * 10 ^ fp.length + (b : ℤ)) (10 ^ fp.length))
      | _, _ => none
  | _ => none

/-- JavaScript `ToNumber` on a string, restricted to decimal literals
(the forms relevant to this code base); every other non-empty string maps
to NaN (`none`), and the empty / all-whitespace string maps to `0`,
exactly as in JavaScript. -/
def strToNumber (s : String) : Option ℚ :=
  match listTrim s.toList with
  | [] => some 0
  | c :: rest =>
    if c.toNat = 45 then (decOfString rest).map Rat.neg
    else if c.toNat = 43 then decOfString rest
    else decOfString (c :: rest)

/-- JavaScript `ToNumber`; `none` is NaN. -/
def jsToNumber : JSVal → Option ℚ
  | JSVal.num q => some q
  | JSVal.nan => none
  | JSVal.str s => strToNumber s
  | JSVal.jsBool b => some (if b then 1 else 0)
  | JSVal.undef => none
  | JSVal.jsNull => some 0

/-- The JavaScript comparison `v < c` against a numeric literal: numeric
comparison after `ToNumber`, false when the conversion yields NaN. -/
def jsNumLt (v : JSVal) (c : ℚ) : Bool :=
  match jsToNumber v with
  | some x => decide (x < c)
  | none => false

/-- The JavaScript comparison `v > c` against a numeric literal. -/
def jsNumGt (v : JSVal) (c : ℚ) : Bool :=
  match jsToNumber v with
  | some x => decide (x > c)
  | none => false

/-- String rendering of a `JSVal` used in template strings. The integer
case is exact; non-integer rationals are rendered as `num/den`, an
approximation of the IEEE shortest-decimal rendering that no claim
depends on. -/
def jsValToString : JSVal → String
  | JSVal.num q => if q.den = 1 then toString q.num else toString q.num ++ "/" ++ toString q.den
  | JSVal.nan => "NaN"
  | JSVal.str s => s
  | JSVal.jsBool b => if b then "true" else "false"
  | JSVal.undef => "undefined"
  | JSVal.jsNull => "null"

/-- Does `pat` occur as a contiguous sublist of `s`? -/
def listHasInfix (pat : List Char) : List Char → Bool
  | [] => decide (pat = [])
  | c :: rest => pat.isPrefixOf (c :: rest) || listHasInfix pat rest

/-- `s.includes(pat)` of JavaScript. -/
def jsIncludes (s pat : String) : Bool :=
  listHasInfix pat.toList s.toList

/-- `s.toUpperCase()` of JavaScript, on the ASCII alphabet used by the
chain tags. -/
def jsToUpper (s : String) : String :=
  String.mk (s.toList.map Char.toUpper)

/-- Rendering of a nonnegative rational with exactly four digits after the
decimal point, rounding half up: `Number.prototype.toFixed(4)`. The
rounded scaled value `⌊q * 10000 + 1/2⌋` is computed on the rational's
numerator and denominator so that it evaluates by kernel reduction. -/
def toFixed4Nonneg (q : ℚ) : String :=
  let np := (Int.fdiv (q.num * 20000 + (q.den : ℤ)) (2 * (q.den : ℤ))).toNat
  let ip := np / 10000
  let fp := np % 10000
  let fs := toString fp
  toString ip ++ "." ++ String.mk (List.replicate (4 - fs.length) (Char.ofNat 48)) ++ fs

/-- `x.toFixed(4)` of JavaScript for the balance values of this code base. -/
def toFixed4 (q : ℚ) : String :=
  if q < 0 then "-" ++ toFixed4Nonneg (Rat.neg q) else toFixed4Nonneg q

/-- The normalized result object every executor returns: `success` is
always present, the remaining fields are present (`some`) exactly when the
corresponding source branch puts them in the object literal. -/
structure MintResult where
  success : Bool
  msg : Option String := none
  code : Option String := none
  txHash : Option String := none
  transactionHash : Option String := none
  signature : Option String := none
  details : Option String := none
  gasUsed : Option String := none
  blockNumber : Option Int := none
  quantity : Option JSVal := none
  resCollectionId : Option String := none
  associatedTokenAccount : Option String := none
deriving Repr, DecidableEq

/-- `{ success: false, msg, code }`. -/
def jfail (m c : String) : MintResult :=
  { success := false, msg := some m, code := some c }

/-- `{ success: false, msg, code, details }`. -/
def jfailD (m c d : String) : MintResult :=
  { success := false, msg := some m, code := some c, details := some d }

/-- A JavaScript `Error` as observed by the handlers: an optional `code`
property and a `message`. -/
structure JsError where
  code : Option String := none
  message : String := ""
deriving Repr, DecidableEq

/-- The external calls an executor performs, in order. `parseKey` is the
local credential-materialization step (not a network call); everything
else is a network interaction. -/
inductive Effect where
  | probe (url : String)
  | getBalance
  | getCode
  | getFeeData
  | estimateGas (idx : Nat)
  | sendTx (idx : Nat) (gasLimit : Int) (gasPrice : Int)
  | waitConfirm
  | parseKey
  | getAccountInfo (addr : String)
  | getLatestBlockhash
  | sendRawTransaction
  | confirmTx
  | httpPost (attempt : Nat)
deriving Repr, DecidableEq

/-- Is the effect a network interaction? (`parseKey` is local.) -/
def Effect.isNetwork : Effect → Bool
  | Effect.parseKey => false
  | _ => true

/-- The network calls of a trace. -/
def netEffects (t : List Effect) : List Effect :=
  t.filter Effect.isNetwork

/-- Is the effect a transaction submission? -/
def Effect.isSubmit : Effect → Bool
  | Effect.sendTx _ _ _ => true
  | Effect.sendRawTransaction => true
  | _ => false

/-- The endpoint-fallback loop shared by the BASE, BSC and SOL executors:
probe each candidate in order, keep the first that answers, record every
probe performed. -/
def firstProbe (ok : String → Bool) : List String → Option String × List Effect
  | [] => (none, [])
  | u :: rest =>
    if ok u then (some u, [Effect.probe u])
    else ((firstProbe ok rest).1, Effect.probe u :: (firstProbe ok rest).2)

/-! ## SUI executor (src/services/mintSUI.js) -/

/-- One GraphQL error entry of the indexer response. -/
structure GqlErr where
  message : String
deriving Repr, DecidableEq

/-- The `error` object of a failed `mintNFT` payload; `raw` is the textual
form the object takes when it lands in the `details` field. -/
structure SuiMintError where
  message : Option String := none
  code : Option String := none
  raw : String := ""
deriving Repr, DecidableEq

/-- The `mintNFT` payload of the GraphQL response. -/
structure MintNFTRes where
  success : Bool
  transactionBlockDigest : Option String := none
  error : Option SuiMintError := none
deriving Repr, DecidableEq

/-- The `data` object inside the GraphQL response body. -/
structure SuiDataData where
  mintNFT : Option MintNFTRes
deriving Repr, DecidableEq

/-- The GraphQL response body (`response.data` of axios): an `errors` list
(absent and empty coincide) and an optional `data` object. -/
structure SuiRespData where
  errors : List GqlErr := []
  data : Option SuiDataData := none
deriving Repr, DecidableEq

/-- An axios response that passed `validateStatus` (status below 500);
`data = none` models a falsy body, `dataRaw` is the body text used when
the body lands in a `details` field. -/
structure SuiHttpResp where
  status : Nat
  data : Option SuiRespData := none
  dataRaw : String := ""
deriving Repr, DecidableEq

/-- Environment of the SUI executor: configuration and the outcome of each
of the up-to-three axios attempts (`Except.error` is a transport throw). -/
structure SuiEnv where
  indexerEndpoint : Option String
  apiUser : Option String
  apiKey : Option String
  attempt1 : Except JsError SuiHttpResp
  attempt2 : Except JsError SuiHttpResp
  attempt3 : Except JsError SuiHttpResp

/-- Input of the SUI executor. -/
structure SuiParams where
  privateKey : Option String := none
  collectionId : Option String := none
  mintStage : Option String := none
  mintQuantity : JSVal := JSVal.undef

/-- The `^[a-fA-F0-9]+$` collection-id test. -/
def isHexString (s : String) : Bool :=
  decide (s ≠ "") &&
    s.toList.all (fun c =>
      c.isDigit || (97 ≤ c.toNat && c.toNat ≤ 102) || (65 ≤ c.toNat && c.toNat ≤ 70))

/-- Result produced when the third axios attempt also threw: the
error-code dispatch at the end of the retry loop, falling back to the
`CONNECTION_FAILED` result built after the loop. -/
def suiNetworkFail (e : JsError) : MintResult :=
  if e.code = some "ECONNABORTED" then
    jfail "Request timed out. SUI network might be congested." "REQUEST_TIMEOUT"
  else if e.code = some "ENOTFOUND" then
    jfail "Cannot reach SUI indexer endpoint. Check network connection." "NETWORK_UNREACHABLE"
  else if e.code = some "ECONNREFUSED" then
    jfail "SUI indexer endpoint refused connection." "CONNECTION_REFUSED"
  else
    jfailD "Failed to connect to SUI network after multiple attempts" "CONNECTION_FAILED" e.message

/-- The retry loop of the SUI executor, unrolled to its literal three
attempts; a successful attempt short-circuits. -/
def suiRetry (env : SuiEnv) : Except MintResult SuiHttpResp × List Effect :=
  match env.attempt1 with
  | Except.ok r => (Except.ok r, [Effect.httpPost 1])
  | Except.error _ =>
    match env.attempt2 with
    | Except.ok r => (Except.ok r, [Effect.httpPost 1, Effect.httpPost 2])
    | Except.error _ =>
      match env.attempt3 with
      | Except.ok r => (Except.ok r, [Effect.httpPost 1, Effect.httpPost 2, Effect.httpPost 3])
      | Except.error e3 =>
        (Except.error (suiNetworkFail e3), [Effect.httpPost 1, Effect.httpPost 2, Effect.httpPost 3])

/-- The HTTP status dispatch for 4xx responses. -/
def suiHttpError (r : SuiHttpResp) : MintResult :=
  if r.status = 401 then jfail "Invalid API credentials" "INVALID_CREDENTIALS"
  else if r.status = 403 then jfail "Access forbidden. Check API permissions." "ACCESS_FORBIDDEN"
  else if r.status = 404 then jfail "SUI indexer endpoint not found" "ENDPOINT_NOT_FOUND"
  else if r.status = 429 then jfail "Rate limited by SUI API. Please try again later." "RATE_LIMITED"
  else jfailD ("SUI API error: HTTP " ++ toString r.status) "HTTP_ERROR" r.dataRaw

/-- The substring dispatch over the first GraphQL error's message. -/
def suiGqlError (e : GqlErr) : MintResult :=
  if jsIncludes e.message "insufficient" then
    jfailD "Insufficient balance for minting" "INSUFFICIENT_BALANCE" e.message
  else if jsIncludes e.message "not found" then
    jfailD "Collection not found or invalid collection ID" "COLLECTION_NOT_FOUND" e.message
  else if jsIncludes e.message "unauthorized" then
    jfailD "Unauthorized to mint from this collection" "MINT_UNAUTHORIZED" e.message
  else if jsIncludes e.message "sold out" || jsIncludes e.message "exceeds" then
    jfailD "Mint quantity exceeds available supply" "MINT_SOLD_OUT" e.message
  else if jsIncludes e.message "not active" then
    jfailD "Mint stage is not currently active" "MINT_STAGE_INACTIVE" e.message
  else
    jfailD "GraphQL error occurred" "GRAPHQL_ERROR" e.message

/-- `x || d` for the optional string fields of the GraphQL error object. -/
def strOr (o : Option String) (d : String) : String :=
  match o with
  | some s => if s = "" then d else s
  | none => d

/-- The payload dispatch after a well-formed HTTP response. -/
def suiHandlePayload (inp : SuiParams) (r : SuiHttpResp) : MintResult :=
  if r.status ≥ 400 then suiHttpError r
  else
    match r.data with
    | none => jfail "Empty response from SUI API" "EMPTY_RESPONSE"
    | some d =>
      match d.errors with
      | e :: _ => suiGqlError e
      | [] =>
        match d.data with
        | none => jfail "Invalid response structure from SUI API" "INVALID_RESPONSE_STRUCTURE"
        | some dd =>
          match dd.mintNFT with
          | none => jfail "Invalid response structure from SUI API" "INVALID_RESPONSE_STRUCTURE"
          | some mr =>
            if !mr.success then
              { success := false
                msg := some ("Mint failed: " ++ strOr (mr.error.bind SuiMintError.message) "Unknown mint error")
                code := some (strOr (mr.error.bind SuiMintError.code) "MINT_FAILED")
                details := mr.error.map SuiMintError.raw }
            else
              match mr.transactionBlockDigest with
              | some dg =>
                if dg ≠ "" then
                  { success := true
                    msg := some ("Successfully minted " ++ jsValToString inp.mintQuantity ++ " NFT(s)")
                    code := some "MINT_SUCCESS"
                    transactionHash := some dg
                    quantity := some inp.mintQuantity
                    resCollectionId := inp.collectionId }
                else jfail "Mint completed but no transaction hash returned" "MISSING_TRANSACTION_HASH"
              | none => jfail "Mint completed but no transaction hash returned" "MISSING_TRANSACTION_HASH"

/-- The SUI executor. -/
def mintSUI (inp : SuiParams) (env : SuiEnv) : MintResult × List Effect :=
  if !(optTruthy inp.privateKey) then
    (jfail "Private key is required" "MISSING_PRIVATE_KEY", [])
  else if !(optTruthy inp.collectionId) then
    (jfail "Collection ID is required" "MISSING_COLLECTION_ID", [])
  else if !(optTruthy inp.mintStage) then
    (jfail "Mint stage is required" "MISSING_MINT_STAGE", [])
  else if !(jsTruthy inp.mintQuantity) || jsNumLt inp.mintQuantity 1 then
    (jfail "Mint quantity must be at least 1" "INVALID_QUANTITY", [])
  else if jsNumGt inp.mintQuantity 100 then
    (jfail "Mint quantity cannot exceed 100" "QUANTITY_TOO_HIGH", [])
  else if (inp.privateKey.getD "").length < 32 then
    (jfail "Private key appears to be too short" "INVALID_PRIVATE_KEY_LENGTH", [])
  else if !(isHexString (inp.collectionId.getD "")) then
    (jfail "Invalid collection ID format" "INVALID_COLLECTION_ID_FORMAT", [])
  else if !(optTruthy env.indexerEndpoint) then
    (jfail "SUI indexer endpoint not configured" "MISSING_INDEXER_ENDPOINT", [])
  else if !(optTruthy env.apiUser) || !(optTruthy env.apiKey) then
    (jfail "TradePort API credentials not configured" "MISSING_API_CREDENTIALS", [])
  else
    match suiRetry env with
    | (Except.error r, tr) => (r, tr)
    | (Except.ok resp, tr) => (suiHandlePayload inp resp, tr)

/-! ## EVM executors (BASE and BSC handlers) -/

/-- A transaction receipt as the handlers read it (`status`,
`transactionHash`, `gasUsed`, `blockNumber`). -/
structure EvmReceipt where
  status : Nat
  transactionHash : String
  gasUsed : Int
  blockNumber : Int
deriving Repr, DecidableEq

/-- Outcome of the `Promise.race` between `tx.wait()` and the 300-second
timer: the wait resolved to a receipt, the wait rejected, or the timer won
(which rejects with `Error("Transaction confirmation timeout")`). -/
inductive ConfirmOutcome where
  | resolved (r : EvmReceipt)
  | rejected (e : JsError)
  | timedOut
deriving Repr, DecidableEq

/-- Input of the BASE, BSC and SOL executors. -/
structure MintParams where
  privateKey : Option String := none
  contractAddress : Option String := none
  mintQuantity : JSVal := JSVal.undef

/-- Environment of an EVM executor: each field is the answer of the
corresponding library or RPC interaction. `isAddressOk` is the value of
the local `ethers.isAddress(contractAddress)` library predicate. -/
structure EvmEnv where
  isAddressOk : Bool
  probeOk : String → Bool
  walletOk : Bool
  contractOk : Bool
  getBalance : Except JsError Int
  getCode : Except JsError String
  getFeeData : Except JsError (Option Int)
  funcExists : String → Bool
  estimateGas : Nat → Except JsError Int
  sendTx : Nat → Int → Int → Except JsError String
  confirm : ConfirmOutcome

/-- A candidate mint call: its position in the handler's list and the
function name looked up on the contract object. -/
structure MintCand where
  idx : Nat
  name : String
deriving Repr, DecidableEq

/-- The BASE fallback RPC endpoints, in source order. -/
def baseRpcUrls : List String :=
  ["https://base.drpc.org/", "https://mainnet.base.org/", "https://base-mainnet.public.blastapi.io"]

/-- The BSC fallback RPC endpoints, in source order. -/
def bscRpcUrls : List String :=
  ["https://bsc-dataseed.binance.org/", "https://bsc-dataseed1.defibit.io/",
   "https://bsc-dataseed1.ninicoin.io/", "https://bsc.drpc.org/"]

/-- The BASE mint candidates: mint(q), publicMint(q), mint(addr,q),
mintTo(addr,q). -/
def baseCands : List MintCand :=
  [⟨0, "mint"⟩, ⟨1, "publicMint"⟩, ⟨2, "mint"⟩, ⟨3, "mintTo"⟩]

/-- The BSC mint candidates: mint(q), publicMint(q), batchMint(q),
mint(addr,q), mintTo(addr,q). -/
def bscCands : List MintCand :=
  [⟨0, "mint"⟩, ⟨1, "publicMint"⟩, ⟨2, "batchMint"⟩, ⟨3, "mint"⟩, ⟨4, "mintTo"⟩]

/-- `ethers.parseUnits("20", "gwei")`: the fixed gas price of every BASE
submission. -/
def baseGasPrice : Int := 20000000000

/-- `ethers.parseUnits("5", "gwei")`: the BSC fallback gas price. -/
def bscFallbackGasPrice : Int := 5000000000

/-- The fixed gas limit of every BASE submission. -/
def baseGasLimit : Int := 500000

/-- The fixed fallback gas limit a BSC submission uses when gas estimation
failed. -/
def bscFixedGasLimit : Int := 300000

/-- The gas price the BSC handler resolves before its candidate loop:
`feeData.gasPrice || parseUnits("5","gwei")`, with the 5-gwei fallback
also taken when `getFeeData` throws; a zero `gasPrice` is falsy and
falls back as well. -/
def bscResolvedGasPrice (env : EvmEnv) : Int :=
  match env.getFeeData with
  | Except.ok (some g) => if g = 0 then bscFallbackGasPrice else g
  | Except.ok none => bscFallbackGasPrice
  | Except.error _ => bscFallbackGasPrice

/-- Outcome of attempting one BASE candidate: the function is absent, gas
estimation failed (the candidate is skipped, the last error unchanged),
the transaction was sent, or the send threw. -/
inductive CandOutcome where
  | absent
  | estFailed
  | sent (h : String)
  | failed (e : JsError)
deriving Repr, DecidableEq

/-- One iteration of the BASE candidate loop: estimate gas first (a
failure skips the candidate without touching `lastError`), then send with
the fixed 500000 gas limit and 20-gwei gas price. -/
def baseTryCand (env : EvmEnv) (c : MintCand) : CandOutcome × List Effect :=
  if env.funcExists c.name then
    match env.estimateGas c.idx with
    | Except.error _ => (CandOutcome.estFailed, [Effect.estimateGas c.idx])
    | Except.ok _ =>
      match env.sendTx c.idx baseGasLimit baseGasPrice with
      | Except.ok h =>
        (CandOutcome.sent h, [Effect.estimateGas c.idx, Effect.sendTx c.idx baseGasLimit baseGasPrice])
      | Except.error e =>
        (CandOutcome.failed e, [Effect.estimateGas c.idx, Effect.sendTx c.idx baseGasLimit baseGasPrice])
  else (CandOutcome.absent, [])

/-- One iteration of the BSC candidate loop: on a successful estimate the
send uses `estimate + 50000`; if the estimate — or that send — throws,
the handler retries the same candidate with the fixed 300000 gas limit,
recording the retry's error as `lastError` when it also throws. -/
def bscTryCand (env : EvmEnv) (gasPrice : Int) (c : MintCand) : CandOutcome × List Effect :=
  if env.funcExists c.name then
    match env.estimateGas c.idx with
    | Except.ok est =>
      match env.sendTx c.idx (est + 50000) gasPrice with
      | Except.ok h =>
        (CandOutcome.sent h, [Effect.estimateGas c.idx, Effect.sendTx c.idx (est + 50000) gasPrice])
      | Except.error _ =>
        match env.sendTx c.idx bscFixedGasLimit gasPrice with
        | Except.ok h =>
          (CandOutcome.sent h,
           [Effect.estimateGas c.idx, Effect.sendTx c.idx (est + 50000) gasPrice,
            Effect.sendTx c.idx bscFixedGasLimit gasPrice])
        | Except.error e2 =>
          (CandOutcome.failed e2,
           [Effect.estimateGas c.idx, Effect.sendTx c.idx (est + 50000) gasPrice,
            Effect.sendTx c.idx bscFixedGasLimit gasPrice])
    | Except.error _ =>
      match env.sendTx c.idx bscFixedGasLimit gasPrice with
      | Except.ok h =>
        (CandOutcome.sent h, [Effect.estimateGas c.idx, Effect.sendTx c.idx bscFixedGasLimit gasPrice])
      | Except.error e2 =>
        (CandOutcome.failed e2, [Effect.estimateGas c.idx, Effect.sendTx c.idx bscFixedGasLimit gasPrice])
  else (CandOutcome.absent, [])

/-- The candidate loop, generic in the per-candidate attempt: stops at the
first send, threading `lastError` exactly as the source does (updated by
`failed`, untouched by `absent` and by BASE's `estFailed`). -/
def mintLoop (tryCand : MintCand → CandOutcome × List Effect) :
    List MintCand → Option JsError → Option String × Option JsError × List Effect
  | [], le => (none, le, [])
  | c :: rest, le =>
    match tryCand c with
    | (CandOutcome.sent h, tr) => (some h, le, tr)
    | (CandOutcome.failed e, tr) =>
      ((mintLoop tryCand rest (some e)).1, (mintLoop tryCand rest (some e)).2.1,
       tr ++ (mintLoop tryCand rest (some e)).2.2)
    | (CandOutcome.estFailed, tr) =>
      ((mintLoop tryCand rest le).1, (mintLoop tryCand rest le).2.1,
       tr ++ (mintLoop tryCand rest le).2.2)
    | (CandOutcome.absent, _) => mintLoop tryCand rest le

/-- The text right after the first occurrence of the pattern in the list,
or `none` when the pattern does not occur. -/
def afterFirst (pat : List Char) : List Char → Option (List Char)
  | [] => if pat.isEmpty then some [] else none
  | c :: rest =>
    if pat.isPrefixOf (c :: rest) then some ((c :: rest).drop pat.length)
    else afterFirst pat rest

/-- The lazy regex `reason string '(.+?)'` of the revert-reason
extraction: the nonempty text between the marker and the next apostrophe,
or "Unknown reason" when there is no match. -/
def extractRevertReason (m : String) : String :=
  match afterFirst ("reason string " ++ String.singleton (Char.ofNat 39)).toList m.toList with
  | some rest =>
    match rest.takeWhile (fun c => c.toNat ≠ 39) with
    | [] => "Unknown reason"
    | content =>
      if content.length < rest.length then String.mk content else "Unknown reason"
  | none => "Unknown reason"

/-- The BASE handler's analysis of `lastError` when no candidate was
submitted. -/
def baseNoTxResult (le : Option JsError) : MintResult :=
  let m := (le.map JsError.message).getD ""
  if jsIncludes m "insufficient funds" then
    jfail "Insufficient funds for transaction + gas fees" "INSUFFICIENT_FUNDS"
  else if jsIncludes m "execution reverted" then
    jfail ("Transaction reverted: " ++ extractRevertReason m) "TRANSACTION_REVERTED"
  else if jsIncludes m "nonce too low" then
    jfail "Transaction nonce error. Please try again." "NONCE_ERROR"
  else if jsIncludes m "replacement transaction underpriced" then
    jfail "Gas price too low. Please try again with higher gas." "GAS_PRICE_LOW"
  else if jsIncludes m "intrinsic gas too low" then
    jfail "Gas limit too low for this transaction" "GAS_LIMIT_LOW"
  else
    jfail "No compatible mint function found or all mint attempts failed" "MINT_FUNCTION_FAILED"

/-- The BSC handler's analysis of `lastError` when no candidate was
submitted. -/
def bscNoTxResult (le : Option JsError) : MintResult :=
  let m := (le.map JsError.message).getD ""
  if jsIncludes m "insufficient funds" then
    jfail "Insufficient BNB for transaction + gas fees" "INSUFFICIENT_FUNDS"
  else if jsIncludes m "execution reverted" then
    jfail ("Transaction reverted: " ++ extractRevertReason m) "TRANSACTION_REVERTED"
  else if jsIncludes m "nonce too low" then
    jfail "Transaction nonce error. Please try again." "NONCE_ERROR"
  else if jsIncludes m "replacement transaction underpriced" then
    jfail "Gas price too low. Please try again." "GAS_PRICE_LOW"
  else if jsIncludes m "intrinsic gas too low" then
    jfail "Gas limit too low for this transaction" "GAS_LIMIT_LOW"
  else if jsIncludes m "max fee per gas less than block base fee" then
    jfail "Gas fee too low for current network conditions" "GAS_FEE_TOO_LOW"
  else
    jfail "No compatible mint function found or all mint attempts failed" "MINT_FUNCTION_FAILED"

/-- The shared confirmation step: a receipt with status 0 is a definite
failure, any other receipt is success; a rejection whose message holds
"timeout" (in particular the race's own timer) is the timeout result
carrying `tx.hash`; any other rejection is rethrown to the outer catch. -/
def evmConfirm (outcome : ConfirmOutcome) (txh : String) : Except JsError MintResult :=
  match outcome with
  | ConfirmOutcome.resolved r =>
    if r.status = 0 then
      Except.ok (jfail "Transaction failed during execution" "TRANSACTION_FAILED")
    else
      Except.ok
        { success := true
          txHash := some r.transactionHash
          gasUsed := some (toString r.gasUsed)
          blockNumber := some r.blockNumber }
  | ConfirmOutcome.rejected e =>
    if jsIncludes e.message "timeout" then
      Except.ok
        { success := false
          msg := some "Transaction sent but confirmation timed out. Check transaction status manually."
          code := some "CONFIRMATION_TIMEOUT"
          txHash := some txh }
    else Except.error e
  | ConfirmOutcome.timedOut =>
    Except.ok
      { success := false
        msg := some "Transaction sent but confirmation timed out. Check transaction status manually."
        code := some "CONFIRMATION_TIMEOUT"
        txHash := some txh }

/-- The BASE handler's outer catch. -/
def baseOuterCatch (e : JsError) : MintResult :=
  if e.code = some "NETWORK_ERROR" then
    jfail "Network connection error. Please check your internet and try again." "NETWORK_ERROR"
  else if e.code = some "TIMEOUT" then
    jfail "Request timed out. Network might be congested." "TIMEOUT"
  else if jsIncludes e.message "insufficient funds" then
    jfail "Insufficient funds to cover transaction and gas fees" "INSUFFICIENT_FUNDS"
  else if jsIncludes e.message "invalid address" || jsIncludes e.message "invalid contract" then
    jfail "Invalid or non-existent contract address" "INVALID_CONTRACT"
  else if jsIncludes e.message "gas required exceeds allowance" then
    jfail "Transaction requires more gas than available" "GAS_LIMIT_EXCEEDED"
  else if jsIncludes e.message "nonce" then
    jfail "Transaction nonce error. Please try again." "NONCE_ERROR"
  else if jsIncludes e.message "429" || jsIncludes e.message "rate limit" then
    jfail "Rate limited by RPC provider. Please try again in a moment." "RATE_LIMITED"
  else
    jfailD "Transaction failed. Please verify your inputs and try again." "UNKNOWN_ERROR" e.message

/-- The BSC handler's outer catch. -/
def bscOuterCatch (e : JsError) : MintResult :=
  if e.code = some "NETWORK_ERROR" then
    jfail "BSC network connection error. Please try again." "NETWORK_ERROR"
  else if e.code = some "TIMEOUT" then
    jfail "Request timed out. BSC network might be congested." "TIMEOUT"
  else if jsIncludes e.message "insufficient funds" then
    jfail "Insufficient BNB to cover transaction and gas fees" "INSUFFICIENT_FUNDS"
  else if jsIncludes e.message "invalid address" || jsIncludes e.message "invalid contract" then
    jfail "Invalid or non-existent contract address" "INVALID_CONTRACT"
  else if jsIncludes e.message "gas required exceeds allowance" then
    jfail "Transaction requires more gas than available" "GAS_LIMIT_EXCEEDED"
  else if jsIncludes e.message "nonce" then
    jfail "Transaction nonce error. Please try again." "NONCE_ERROR"
  else if jsIncludes e.message "429" || jsIncludes e.message "rate limit" then
    jfail "Rate limited by BSC RPC provider. Please try again in a moment." "RATE_LIMITED"
  else
    jfailD "BSC transaction failed. Please verify your inputs and try again." "UNKNOWN_ERROR" e.message

/-- The BASE executor. -/
def mintBASE (inp : MintParams) (env : EvmEnv) : MintResult × List Effect :=
  if !(optTruthy inp.privateKey) then
    (jfail "Private key is required" "MISSING_PRIVATE_KEY", [])
  else if !(optTruthy inp.contractAddress) then
    (jfail "Contract address is required" "MISSING_CONTRACT_ADDRESS", [])
  else if !(jsTruthy inp.mintQuantity) || jsNumLt inp.mintQuantity 1 then
    (jfail "Mint quantity must be at least 1" "INVALID_QUANTITY", [])
  else if !env.isAddressOk then
    (jfail "Invalid contract address format" "INVALID_ADDRESS_FORMAT", [])
  else
    match firstProbe env.probeOk baseRpcUrls with
    | (none, ptr) =>
      (jfail "Unable to connect to BASE network. All RPC endpoints are down." "RPC_CONNECTION_FAILED", ptr)
    | (some _, ptr) =>
      if !env.walletOk then
        (jfail "Invalid private key format" "INVALID_PRIVATE_KEY", ptr ++ [Effect.parseKey])
      else
        match env.getBalance with
        | Except.error _ =>
          (jfail "Failed to check wallet balance" "BALANCE_CHECK_FAILED",
           ptr ++ [Effect.parseKey, Effect.getBalance])
        | Except.ok wei =>
          if Rat.divInt wei (10 ^ 18) < mkRat 1 1000 then
            (jfail ("Insufficient balance. Current: " ++ toFixed4 (Rat.divInt wei (10 ^ 18)) ++
                    " ETH. Minimum required: 0.001 ETH") "INSUFFICIENT_BALANCE",
             ptr ++ [Effect.parseKey, Effect.getBalance])
          else if !env.contractOk then
            (jfail "Failed to create contract instance" "CONTRACT_INSTANCE_FAILED",
             ptr ++ [Effect.parseKey, Effect.getBalance])
          else
            match env.getCode with
            | Except.error _ =>
              (jfail "Failed to verify contract existence" "CONTRACT_VERIFICATION_FAILED",
               ptr ++ [Effect.parseKey, Effect.getBalance, Effect.getCode])
            | Except.ok code =>
              if code = "0x" then
                (jfail "Contract not found at the provided address" "CONTRACT_NOT_FOUND",
                 ptr ++ [Effect.parseKey, Effect.getBalance, Effect.getCode])
              else
                match mintLoop (baseTryCand env) baseCands none with
                | (none, le, ltr) =>
                  (baseNoTxResult le, ptr ++ [Effect.parseKey, Effect.getBalance, Effect.getCode] ++ ltr)
                | (some h, _, ltr) =>
                  match evmConfirm env.confirm h with
                  | Except.ok r =>
                    (r, ptr ++ [Effect.parseKey, Effect.getBalance, Effect.getCode] ++ ltr ++ [Effect.waitConfirm])
                  | Except.error e =>
                    (baseOuterCatch e,
                     ptr ++ [Effect.parseKey, Effect.getBalance, Effect.getCode] ++ ltr ++ [Effect.waitConfirm])

/-- The BSC executor. -/
def mintBSC (inp : MintParams) (env : EvmEnv) : MintResult × List Effect :=
  if !(optTruthy inp.privateKey) then
    (jfail "Private key is required" "MISSING_PRIVATE_KEY", [])
  else if !(optTruthy inp.contractAddress) then
    (jfail "Contract address is required" "MISSING_CONTRACT_ADDRESS", [])
  else if !(jsTruthy inp.mintQuantity) || jsNumLt inp.mintQuantity 1 then
    (jfail "Mint quantity must be at least 1" "INVALID_QUANTITY", [])
  else if !env.isAddressOk then
    (jfail "Invalid contract address format" "INVALID_ADDRESS_FORMAT", [])
  else
    match firstProbe env.probeOk bscRpcUrls with
    | (none, ptr) =>
      (jfail "Unable to connect to BSC network. All RPC endpoints are down." "RPC_CONNECTION_FAILED", ptr)
    | (some _, ptr) =>
      if !env.walletOk then
        (jfail "Invalid private key format" "INVALID_PRIVATE_KEY", ptr ++ [Effect.parseKey])
      else
        match env.getBalance with
        | Except.error _ =>
          (jfail "Failed to check wallet balance" "BALANCE_CHECK_FAILED",
           ptr ++ [Effect.parseKey, Effect.getBalance])
        | Except.ok wei =>
          if Rat.divInt wei (10 ^ 18) < mkRat 5 1000 then
            (jfail ("Insufficient BNB balance. Current: " ++ toFixed4 (Rat.divInt wei (10 ^ 18)) ++
                    " BNB. Minimum required: 0.005 BNB") "INSUFFICIENT_BALANCE",
             ptr ++ [Effect.parseKey, Effect.getBalance])
          else if !env.contractOk then
            (jfail "Failed to create contract instance" "CONTRACT_INSTANCE_FAILED",
             ptr ++ [Effect.parseKey, Effect.getBalance])
          else
            match env.getCode with
            | Except.error _ =>
              (jfail "Failed to verify contract existence" "CONTRACT_VERIFICATION_FAILED",
               ptr ++ [Effect.parseKey, Effect.getBalance, Effect.getCode])
            | Except.ok code =>
              if code = "0x" then
                (jfail "Contract not found at the provided address" "CONTRACT_NOT_FOUND",
                 ptr ++ [Effect.parseKey, Effect.getBalance, Effect.getCode])
              else
                match mintLoop (bscTryCand env (bscResolvedGasPrice env)) bscCands none with
                | (none, le, ltr) =>
                  (bscNoTxResult le,
                   ptr ++ [Effect.parseKey, Effect.getBalance, Effect.getCode, Effect.getFeeData] ++ ltr)
                | (some h, _, ltr) =>
                  match evmConfirm env.confirm h with
                  | Except.ok r =>
                    (r, ptr ++ [Effect.parseKey, Effect.getBalance, Effect.getCode, Effect.getFeeData] ++
                        ltr ++ [Effect.waitConfirm])
                  | Except.error e =>
                    (bscOuterCatch e,
                     ptr ++ [Effect.parseKey, Effect.getBalance, Effect.getCode, Effect.getFeeData] ++
                     ltr ++ [Effect.waitConfirm])

/-! ## SOL executor (src/services/mintSOL.js) -/

/-- An account-info object as the handler reads it (only `owner`). -/
structure SolAccountInfo where
  owner : String
deriving Repr, DecidableEq

/-- Outcome of the `Promise.race` between `confirmTransaction` and the
300-second timer; a resolution carries `confirmation.value.err` (modelled
by its `JSON.stringify` text). -/
inductive SolConfirmOutcome where
  | resolved (err : Option String)
  | rejected (e : JsError)
  | timedOut
deriving Repr, DecidableEq

/-- Environment of the SOL executor. `jsonParse`, `hexDecodeLen` and
`b58Decode` give the decoded byte length of the private key in the
respective branch (`Except.error` models the library throwing). -/
structure SolEnv where
  probeOk : String → Bool
  jsonParse : Except JsError Nat
  hexDecodeLen : Nat
  b58Decode : Except JsError Nat
  fromSecretKeyOk : Bool
  publicKeyOk : Bool
  getBalance : Except JsError Int
  getMintAccountInfo : Except JsError (Option SolAccountInfo)
  ataAddress : String
  getAtaAccountInfo : Except JsError (Option SolAccountInfo)
  latestBlockhash : Except JsError String
  sendRawTx : Except JsError String
  confirm : SolConfirmOutcome

/-- The SOL fallback RPC endpoints, in source order. -/
def solRpcUrls : List String :=
  ["https://api.mainnet-beta.solana.com", "https://solana-api.projectserum.com",
   "https://rpc.ankr.com/solana", "https://solana.drpc.org"]

/-- `TOKEN_PROGRAM_ID.toString()` of the SPL token library. -/
def tokenProgramId : String := "TokenkegQfeZyiNwAJbNbGKPFXCWuBvf9Ss623VQ5DA"

/-- Why the secret-key decoding step did not produce a byte array. -/
inductive SolKeyFail where
  | badFormat
  | thrown
deriving Repr, DecidableEq

/-- The encoding dispatch of the private-key parser: a bracketed string is
the JSON-array branch, a 128-character string the hex branch (Buffer
decoding never throws), an 88-character string the base58 branch, and
anything else is the format failure. A decoder throw is caught by the
enclosing key catch. -/
def solSecretKeyLen (pk : String) (env : SolEnv) : Except SolKeyFail Nat :=
  if strStartsWith pk "[" && strEndsWith pk "]" then
    match env.jsonParse with
    | Except.ok n => Except.ok n
    | Except.error _ => Except.error SolKeyFail.thrown
  else if pk.length = 128 then Except.ok env.hexDecodeLen
  else if pk.length = 88 then
    match env.b58Decode with
    | Except.ok n => Except.ok n
    | Except.error _ => Except.error SolKeyFail.thrown
  else Except.error SolKeyFail.badFormat

/-- The transaction catch of the SOL handler: the ordered substring
dispatch over the thrown error's message. -/
def solTxCatch (e : JsError) : MintResult :=
  if jsIncludes e.message "insufficient funds" then
    jfail "Insufficient SOL for transaction fees" "INSUFFICIENT_FUNDS"
  else if jsIncludes e.message "custom program error: 0x1" then
    jfail "Insufficient funds in mint account" "MINT_INSUFFICIENT_FUNDS"
  else if jsIncludes e.message "custom program error: 0x0" then
    jfail ("Mint authority error - you don" ++ String.singleton (Char.ofNat 39) ++
           "t have permission to mint") "MINT_AUTHORITY_ERROR"
  else if jsIncludes e.message "InvalidAccountData" then
    jfail "Invalid account data - contract address may be incorrect" "INVALID_ACCOUNT_DATA"
  else if jsIncludes e.message "AccountNotFound" then
    jfail "Account not found - invalid contract address" "ACCOUNT_NOT_FOUND"
  else if jsIncludes e.message "timeout" then
    jfail "Transaction timed out. It may still be processing." "TRANSACTION_TIMEOUT"
  else if jsIncludes e.message "blockhash not found" then
    jfail "Transaction expired. Please try again." "BLOCKHASH_EXPIRED"
  else
    jfailD "Solana transaction failed. Please verify contract address and try again."
      "TRANSACTION_ERROR" e.message

/-- The transaction section of the SOL executor (the big try around
account lookup, transaction build, submission and confirmation); the
trace it returns is relative to the steps already performed. -/
def solTxSection (env : SolEnv) : MintResult × List Effect :=
  match env.getAtaAccountInfo with
  | Except.error e => (solTxCatch e, [Effect.getAccountInfo env.ataAddress])
  | Except.ok _ =>
    match env.latestBlockhash with
    | Except.error e =>
      (solTxCatch e, [Effect.getAccountInfo env.ataAddress, Effect.getLatestBlockhash])
    | Except.ok _ =>
      match env.sendRawTx with
      | Except.error e =>
        (solTxCatch e,
         [Effect.getAccountInfo env.ataAddress, Effect.getLatestBlockhash, Effect.sendRawTransaction])
      | Except.ok sig =>
        match env.confirm with
        | SolConfirmOutcome.resolved (some errStr) =>
          ({ success := false
             msg := some ("Transaction failed: " ++ errStr)
             code := some "TRANSACTION_FAILED"
             signature := some sig },
           [Effect.getAccountInfo env.ataAddress, Effect.getLatestBlockhash,
            Effect.sendRawTransaction, Effect.confirmTx])
        | SolConfirmOutcome.resolved none =>
          ({ success := true
             txHash := some sig
             associatedTokenAccount := some env.ataAddress },
           [Effect.getAccountInfo env.ataAddress, Effect.getLatestBlockhash,
            Effect.sendRawTransaction, Effect.confirmTx])
        | SolConfirmOutcome.rejected e =>
          (solTxCatch e,
           [Effect.getAccountInfo env.ataAddress, Effect.getLatestBlockhash,
            Effect.sendRawTransaction, Effect.confirmTx])
        | SolConfirmOutcome.timedOut =>
          (solTxCatch { message := "Transaction confirmation timeout" },
           [Effect.getAccountInfo env.ataAddress, Effect.getLatestBlockhash,
            Effect.sendRawTransaction, Effect.confirmTx])

/-- The mint-account verification step of the SOL executor and everything
after it; the trace is relative to the steps already performed. -/
def solMintAccountStep (mintAddr : String) (env : SolEnv) : MintResult × List Effect :=
  match env.getMintAccountInfo with
  | Except.error _ =>
    (jfail "Failed to verify mint account" "MINT_VERIFICATION_FAILED", [Effect.getAccountInfo mintAddr])
  | Except.ok none =>
    (jfail "Mint account not found. Invalid contract address." "MINT_NOT_FOUND",
     [Effect.getAccountInfo mintAddr])
  | Except.ok (some info) =>
    if info.owner ≠ tokenProgramId then
      (jfail "Provided address is not a valid SPL token mint" "INVALID_MINT_ACCOUNT",
       [Effect.getAccountInfo mintAddr])
    else
      ((solTxSection env).1, Effect.getAccountInfo mintAddr :: (solTxSection env).2)

/-- The balance precheck of the SOL executor and everything after it; the
trace is relative to the steps already performed. -/
def solBalanceStep (mintAddr : String) (env : SolEnv) : MintResult × List Effect :=
  match env.getBalance with
  | Except.error _ =>
    (jfail "Failed to check wallet balance" "BALANCE_CHECK_FAILED", [Effect.getBalance])
  | Except.ok lam =>
    if Rat.divInt lam (10 ^ 9) < mkRat 1 100 then
      (jfail ("Insufficient SOL balance. Current: " ++ toFixed4 (Rat.divInt lam (10 ^ 9)) ++
              " SOL. Minimum required: 0.01 SOL") "INSUFFICIENT_BALANCE", [Effect.getBalance])
    else
      ((solMintAccountStep mintAddr env).1, Effect.getBalance :: (solMintAccountStep mintAddr env).2)

/-- The credential-materialization step of the SOL executor: `some` is the
validation failure it short-circuits with, `none` means the keypair was
built. -/
def solKeyStep (pk : String) (env : SolEnv) : Option MintResult :=
  match solSecretKeyLen pk env with
  | Except.error SolKeyFail.badFormat =>
    some (jfail "Invalid private key format. Use base58, hex, or array format." "INVALID_PRIVATE_KEY_FORMAT")
  | Except.error SolKeyFail.thrown =>
    some (jfail "Invalid private key format or corrupted key" "INVALID_PRIVATE_KEY")
  | Except.ok n =>
    if n ≠ 64 then
      some (jfail "Private key must be 64 bytes long" "INVALID_PRIVATE_KEY_LENGTH")
    else if !env.fromSecretKeyOk then
      some (jfail "Invalid private key format or corrupted key" "INVALID_PRIVATE_KEY")
    else none

/-- The SOL executor. -/
def mintSOL (inp : MintParams) (env : SolEnv) : MintResult × List Effect :=
  if !(optTruthy inp.privateKey) then
    (jfail "Private key is required" "MISSING_PRIVATE_KEY", [])
  else if !(optTruthy inp.contractAddress) then
    (jfail "Contract address (Mint Address) is required" "MISSING_CONTRACT_ADDRESS", [])
  else if !(jsTruthy inp.mintQuantity) || jsNumLt inp.mintQuantity 1 then
    (jfail "Mint quantity must be at least 1" "INVALID_QUANTITY", [])
  else
    match firstProbe env.probeOk solRpcUrls with
    | (none, ptr) =>
      (jfail "Unable to connect to Solana network. All RPC endpoints are down." "RPC_CONNECTION_FAILED", ptr)
    | (some _, ptr) =>
      match solKeyStep (inp.privateKey.getD "") env with
      | some r => (r, ptr ++ [Effect.parseKey])
      | none =>
        if !env.publicKeyOk then
          (jfail "Invalid Solana contract address format" "INVALID_ADDRESS_FORMAT", ptr ++ [Effect.parseKey])
        else
          ((solBalanceStep (inp.contractAddress.getD "") env).1,
           ptr ++ [Effect.parseKey] ++ (solBalanceStep (inp.contractAddress.getD "") env).2)

/-! ## Mint dispatcher (src/controllers/mintController.js) -/

/-- A response body at the HTTP boundary: a JavaScript object whose fields
may each be absent. -/
structure DispatchBody where
  success : Option Bool := none
  msg : Option String := none
  error : Option String := none
  code : Option String := none
  txHash : Option String := none
  transactionHash : Option String := none
  signature : Option String := none
  details : Option String := none
  gasUsed : Option String := none
  blockNumber : Option Int := none
  quantity : Option JSVal := none
  resCollectionId : Option String := none
  associatedTokenAccount : Option String := none
deriving Repr, DecidableEq

/-- The fields of a `MintResult` viewed as a response-body object
(`success` is always present on an executor result). -/
def mintResultFields (r : MintResult) : DispatchBody :=
  { success := some r.success, msg := r.msg, code := r.code, txHash := r.txHash,
    transactionHash := r.transactionHash, signature := r.signature, details := r.details,
    gasUsed := r.gasUsed, blockNumber := r.blockNumber, quantity := r.quantity,
    resCollectionId := r.resCollectionId, associatedTokenAccount := r.associatedTokenAccount }

/-- JavaScript object-literal spread `{ ...base, ...over }`: a field of
`over`, when present, overwrites the one of `base`. -/
def spreadAfter (base over : DispatchBody) : DispatchBody :=
  { success := over.success <|> base.success
    msg := over.msg <|> base.msg
    error := over.error <|> base.error
    code := over.code <|> base.code
    txHash := over.txHash <|> base.txHash
    transactionHash := over.transactionHash <|> base.transactionHash
    signature := over.signature <|> base.signature
    details := over.details <|> base.details
    gasUsed := over.gasUsed <|> base.gasUsed
    blockNumber := over.blockNumber <|> base.blockNumber
    quantity := over.quantity <|> base.quantity
    resCollectionId := over.resCollectionId <|> base.resCollectionId
    associatedTokenAccount := over.associatedTokenAccount <|> base.associatedTokenAccount }

/-- The dispatcher's 200 response body `{ success: true, ...result }`:
the literal `success: true` comes first, the spread of the executor
result second. -/
def wrap200 (r : MintResult) : DispatchBody :=
  spreadAfter { success := some true } (mintResultFields r)

/-- An HTTP response of the dispatcher. -/
structure HttpResp where
  status : Nat
  body : DispatchBody
deriving Repr, DecidableEq

/-- The request body: a `chain` field of any JavaScript type plus the mint
fields forwarded to the executor. -/
structure ReqBody where
  chain : JSVal := JSVal.undef
  privateKey : Option String := none
  contractAddress : Option String := none
  collectionId : Option String := none
  mintStage : Option String := none
  mintQuantity : JSVal := JSVal.undef

/-- The executor environments the dispatcher may consult. -/
structure Envs where
  sui : SuiEnv
  bsc : EvmEnv
  base : EvmEnv

/-- The inline result of the dispatcher's SOL branch (the SOL executor is
not wired in): `{ success: false, msg: "SOL mint not yet implemented" }`,
with no `code`. -/
def solStubResult : MintResult :=
  { success := false, msg := some "SOL mint not yet implemented" }

/-- The message of the `TypeError` raised by `chain.toUpperCase()` when
`chain` has no such method; the controller only forwards it opaquely. -/
def chainTypeErrorMessage : String :=
  "Cannot read properties of undefined (reading toUpperCase)"

/-- The SUI input assembled from the request body's remaining fields. -/
def suiParamsOf (b : ReqBody) : SuiParams :=
  { privateKey := b.privateKey, collectionId := b.collectionId,
    mintStage := b.mintStage, mintQuantity := b.mintQuantity }

/-- The EVM/SOL input assembled from the request body's remaining fields. -/
def mintParamsOf (b : ReqBody) : MintParams :=
  { privateKey := b.privateKey, contractAddress := b.contractAddress,
    mintQuantity := b.mintQuantity }

/-- The dispatcher `handleMint`: the HTTP response, the network/local
trace of the invoked executor, and which executor was invoked (none for
the inline SOL stub, the unsupported-chain response and the thrown
`TypeError`). -/
def handleMint (b : ReqBody) (env : Envs) : HttpResp × List Effect × Option String :=
  match b.chain with
  | JSVal.str c =>
    if jsToUpper c = "SUI" then
      (⟨200, wrap200 (mintSUI (suiParamsOf b) env.sui).1⟩, (mintSUI (suiParamsOf b) env.sui).2, some "SUI")
    else if jsToUpper c = "BSC" then
      (⟨200, wrap200 (mintBSC (mintParamsOf b) env.bsc).1⟩, (mintBSC (mintParamsOf b) env.bsc).2, some "BSC")
    else if jsToUpper c = "BASE" then
      (⟨200, wrap200 (mintBASE (mintParamsOf b) env.base).1⟩, (mintBASE (mintParamsOf b) env.base).2, some "BASE")
    else if jsToUpper c = "SOL" then
      (⟨200, wrap200 solStubResult⟩, [], none)
    else
      (⟨400, { success := some false, msg := some "Unsupported chain" }⟩, [], none)
  | _ =>
    (⟨500, { success := some false, msg := some "Minting error",
             error := some chainTypeErrorMessage }⟩, [], none)

/-! ## Invariant and auxiliary predicates -/

/-- A transaction hash is present (either under the EVM/SOL `txHash` name
or the SUI `transactionHash` name). -/
def hashPresent (r : MintResult) : Prop :=
  r.txHash.isSome ∨ r.transactionHash.isSome

/-- Exactly one of {success with a transaction hash present} and
{failure with a code set} holds. -/
def resultExclusive (r : MintResult) : Prop :=
  ((r.success = true ∧ hashPresent r) ∨ (r.success = false ∧ r.code.isSome)) ∧
  ¬((r.success = true ∧ hashPresent r) ∧ (r.success = false ∧ r.code.isSome))

instance (r : MintResult) : Decidable (hashPresent r) := by
  unfold hashPresent; infer_instance

instance (r : MintResult) : Decidable (resultExclusive r) := by
  unfold resultExclusive; infer_instance

/-- A successful `mintNFT` payload used by the sample SUI environment. -/
def demoMintNFTRes : MintNFTRes :=
  { success := true, transactionBlockDigest := some "0xDEAD" }

/-- A successful response body used by the sample SUI environment. -/
def demoSuiResp : SuiHttpResp :=
  { status := 200, data := some { errors := [], data := some { mintNFT := some demoMintNFTRes } } }

/-- A sample environment for the SUI executor, used to instantiate
theorems: the configuration is present and the first request attempt
succeeds with a well-formed mint payload. -/
def demoSuiEnv : SuiEnv :=
  { indexerEndpoint := some "https://indexer.example"
    apiUser := some "user"
    apiKey := some "key"
    attempt1 := Except.ok demoSuiResp
    attempt2 := Except.error { message := "unused" }
    attempt3 := Except.error { message := "unused" } }

/-- A sample EVM environment in which every step succeeds. -/
def demoEvmEnv : EvmEnv :=
  { isAddressOk := true
    probeOk := fun _ => true
    walletOk := true
    contractOk := true
    getBalance := Except.ok 1000000000000000000
    getCode := Except.ok "0x6080"
    getFeeData := Except.ok (some 3000000000)
    funcExists := fun _ => true
    estimateGas := fun _ => Except.ok 100000
    sendTx := fun _ _ _ => Except.ok "0xhash"
    confirm := ConfirmOutcome.resolved { status := 1, transactionHash := "0xhash", gasUsed := 90000, blockNumber := 123 } }

/-- A sample SOL environment in which every step succeeds. -/
def demoSolEnv : SolEnv :=
  { probeOk := fun _ => true
    jsonParse := Except.ok 64
    hexDecodeLen := 64
    b58Decode := Except.ok 64
    fromSecretKeyOk := true
    publicKeyOk := true
    getBalance := Except.ok 1000000000
    getMintAccountInfo := Except.ok (some { owner := tokenProgramId })
    ataAddress := "AtaAddr111"
    getAtaAccountInfo := Except.ok (some { owner := tokenProgramId })
    latestBlockhash := Except.ok "Bh111"
    sendRawTx := Except.ok "Sig111"
    confirm := SolConfirmOutcome.resolved none }

/-- The dispatcher environments used to instantiate theorems. -/
def demoEnvs : Envs :=
  { sui := demoSuiEnv, bsc := demoEvmEnv, base := demoEvmEnv }

/-- A request input whose fields pass every local validation of the EVM
and SOL executors. -/
def demoParams : MintParams :=
  { privateKey := some "0f0f0f0f0f0f0f0f0f0f0f0f0f0f0f0f0f0f0f0f0f0f0f0f0f0f0f0f0f0f0f0f"
    contractAddress := some "0x1111111111111111111111111111111111111111"
    mintQuantity := JSVal.num 2 }

/-- A sample SUI input passing every local validation. -/
def demoSuiParams : SuiParams :=
  { privateKey := some "0f0f0f0f0f0f0f0f0f0f0f0f0f0f0f0f0f0f0f0f0f0f0f0f0f0f0f0f0f0f0f0f"
    collectionId := some "abc123"
    mintStage := some "public"
    mintQuantity := JSVal.num 2 }

/-- A 128-character hex private key accepted by the SOL parser's hex
branch. -/
def pk128 : String := String.mk (List.replicate 128 (Char.ofNat 97))

/-- A SOL input whose private key takes the 128-character hex form. -/
def demoSolParams : MintParams :=
  { privateKey := some pk128
    contractAddress := some "MintAddr111"
    mintQuantity := JSVal.num 2 }

/-- The sample EVM environment with every RPC probe failing. -/
def probeFailEvmEnv : EvmEnv :=
  { demoEvmEnv with probeOk := fun _ => false }

/-- The sample SOL environment with every RPC probe failing. -/
def probeFailSolEnv : SolEnv :=
  { demoSolEnv with probeOk := fun _ => false }

/-- The sample EVM environment with a 1000-wei balance (below every
threshold). -/
def lowBalEvmEnv : EvmEnv :=
  { demoEvmEnv with getBalance := Except.ok 1000 }

/-- The sample SOL environment with a 1000-lamport balance. -/
def lowBalSolEnv : SolEnv :=
  { demoSolEnv with getBalance := Except.ok 1000 }

/-- The sample EVM environment whose confirmation wait times out. -/
def timeoutEvmEnv : EvmEnv :=
  { demoEvmEnv with confirm := ConfirmOutcome.timedOut }

/-- The sample SOL environment whose confirmation wait times out. -/
def timeoutSolEnv : SolEnv :=
  { demoSolEnv with confirm := SolConfirmOutcome.timedOut }

/-- The sample EVM environment in which every gas estimation throws. -/
def estFailEvmEnv : EvmEnv :=
  { demoEvmEnv with estimateGas := fun _ => Except.error { message := "gas estimation failed" } }

/-! ## Helper lemmas -/

theorem firstProbe_all_fail (ok : String → Bool) (us : List String)
    (h : ∀ u ∈ us, ok u = false) :
    firstProbe ok us = (none, us.map Effect.probe) := by
  induction us with
  | nil => rfl
  | cons u rest ih =>
    have hu : ok u = false := h u (by simp)
    simp [firstProbe, hu, ih (fun v hv => h v (by simp [hv]))]

theorem firstProbe_first_success (ok : String → Bool) (u : String) (pre post : List String)
    (hpre : ∀ v ∈ pre, ok v = false) (hu : ok u = true) :
    firstProbe ok (pre ++ u :: post) = (some u, (pre ++ [u]).map Effect.probe) := by
  induction pre with
  | nil => simp [firstProbe, hu]
  | cons v rest ih =>
    have hv : ok v = false := hpre v (by simp)
    simp [firstProbe, hv, ih (fun w hw => hpre w (by simp [hw]))]

theorem firstProbe_trace_probes (ok : String → Bool) (us : List String) :
    ∀ e ∈ (firstProbe ok us).2, ∃ u, e = Effect.probe u := by
  induction us with
  | nil => intro e he; cases he
  | cons u rest ih =>
    intro e he
    rw [firstProbe] at he
    by_cases hu : ok u
    · rw [if_pos hu] at he
      simp at he
      exact ⟨u, he⟩
    · rw [if_neg hu] at he
      simp at he
      rcases he with he | he
      · exact ⟨u, he⟩
      · exact ih e he

theorem probe_not_submit (e : Effect) (u : String) (h : e = Effect.probe u) :
    Effect.isSubmit e = false := by
  subst h; rfl

theorem resultExclusive_jfail (m c : String) : resultExclusive (jfail m c) := by
  simp [resultExclusive, jfail, hashPresent]

theorem resultExclusive_jfailD (m c d : String) : resultExclusive (jfailD m c d) := by
  simp [resultExclusive, jfailD, hashPresent]

theorem resultExclusive_suiNetworkFail (e : JsError) :
    resultExclusive (suiNetworkFail e) := by
  unfold suiNetworkFail
  repeat' split
  all_goals first
    | exact resultExclusive_jfail _ _
    | exact resultExclusive_jfailD _ _ _

theorem resultExclusive_suiHttpError (r : SuiHttpResp) :
    resultExclusive (suiHttpError r) := by
  unfold suiHttpError
  repeat' split
  all_goals first
    | exact resultExclusive_jfail _ _
    | exact resultExclusive_jfailD _ _ _

theorem resultExclusive_suiGqlError (e : GqlErr) :
    resultExclusive (suiGqlError e) := by
  unfold suiGqlError
  repeat' split
  all_goals first
    | exact resultExclusive_jfail _ _
    | exact resultExclusive_jfailD _ _ _

theorem resultExclusive_suiHandlePayload (inp : SuiParams) (r : SuiHttpResp) :
    resultExclusive (suiHandlePayload inp r) := by
  unfold suiHandlePayload
  repeat' split
  all_goals first
    | exact resultExclusive_jfail _ _
    | exact resultExclusive_suiHttpError _
    | exact resultExclusive_suiGqlError _
    | simp [resultExclusive, hashPresent]

theorem resultExclusive_suiRetry_error (env : SuiEnv) (r : MintResult) (tr : List Effect)
    (heq : suiRetry env = (Except.error r, tr)) : resultExclusive r := by
  unfold suiRetry at heq
  repeat' split at heq
  all_goals injection heq with h1 h2
  all_goals try (injection h1; done)
  all_goals injection h1 with h3
  all_goals rw [← h3]
  all_goals exact resultExclusive_suiNetworkFail _

theorem resultExclusive_mintSUI (inp : SuiParams) (env : SuiEnv) :
    resultExclusive (mintSUI inp env).1 := by
  unfold mintSUI
  repeat' split
  all_goals first
    | exact resultExclusive_jfail _ _
    | exact resultExclusive_suiHandlePayload _ _
    | (rename_i heq; exact resultExclusive_suiRetry_error _ _ _ heq)

theorem resultExclusive_baseNoTxResult (le : Option JsError) :
    resultExclusive (baseNoTxResult le) := by
  simp only [baseNoTxResult]
  repeat' split
  all_goals exact resultExclusive_jfail _ _

theorem resultExclusive_bscNoTxResult (le : Option JsError) :
    resultExclusive (bscNoTxResult le) := by
  simp only [bscNoTxResult]
  repeat' split
  all_goals exact resultExclusive_jfail _ _

theorem resultExclusive_baseOuterCatch (e : JsError) :
    resultExclusive (baseOuterCatch e) := by
  unfold baseOuterCatch
  repeat' split
  all_goals first
    | exact resultExclusive_jfail _ _
    | exact resultExclusive_jfailD _ _ _

theorem resultExclusive_bscOuterCatch (e : JsError) :
    resultExclusive (bscOuterCatch e) := by
  unfold bscOuterCatch
  repeat' split
  all_goals first
    | exact resultExclusive_jfail _ _
    | exact resultExclusive_jfailD _ _ _

theorem resultExclusive_evmConfirm (o : ConfirmOutcome) (h : String) (r : MintResult)
    (heq : evmConfirm o h = Except.ok r) : resultExclusive r := by
  cases o with
  | resolved rc =>
    by_cases hs : rc.status = 0
    · simp only [evmConfirm, if_pos hs, Except.ok.injEq] at heq
      rw [← heq]; exact resultExclusive_jfail _ _
    · simp only [evmConfirm, if_neg hs, Except.ok.injEq] at heq
      rw [← heq]; simp [resultExclusive, hashPresent]
  | rejected e =>
    by_cases ht : jsIncludes e.message "timeout" = true
    · simp only [evmConfirm, if_pos ht, Except.ok.injEq] at heq
      rw [← heq]; simp [resultExclusive, hashPresent]
    · simp only [evmConfirm, if_neg ht] at heq
      cases heq
  | timedOut =>
    simp only [evmConfirm, Except.ok.injEq] at heq
    rw [← heq]; simp [resultExclusive, hashPresent]

theorem resultExclusive_mintBASE (inp : MintParams) (env : EvmEnv) :
    resultExclusive (mintBASE inp env).1 := by
  unfold mintBASE
  repeat' split
  all_goals first
    | exact resultExclusive_jfail _ _
    | exact resultExclusive_baseNoTxResult _
    | exact resultExclusive_baseOuterCatch _
    | (rename_i heq; exact resultExclusive_evmConfirm _ _ _ heq)

theorem resultExclusive_mintBSC (inp : MintParams) (env : EvmEnv) :
    resultExclusive (mintBSC inp env).1 := by
  unfold mintBSC
  repeat' split
  all_goals first
    | exact resultExclusive_jfail _ _
    | exact resultExclusive_bscNoTxResult _
    | exact resultExclusive_bscOuterCatch _
    | (rename_i heq; exact resultExclusive_evmConfirm _ _ _ heq)

theorem resultExclusive_solTxCatch (e : JsError) :
    resultExclusive (solTxCatch e) := by
  unfold solTxCatch
  repeat' split
  all_goals first
    | exact resultExclusive_jfail _ _
    | exact resultExclusive_jfailD _ _ _

theorem resultExclusive_solTxSection (env : SolEnv) :
    resultExclusive (solTxSection env).1 := by
  unfold solTxSection
  repeat' split
  all_goals first
    | exact resultExclusive_jfail _ _
    | exact resultExclusive_solTxCatch _
    | simp [resultExclusive, hashPresent]

theorem resultExclusive_solMintAccountStep (mintAddr : String) (env : SolEnv) :
    resultExclusive (solMintAccountStep mintAddr env).1 := by
  unfold solMintAccountStep
  repeat' split
  all_goals first
    | exact resultExclusive_jfail _ _
    | exact resultExclusive_solTxSection _

theorem resultExclusive_solBalanceStep (mintAddr : String) (env : SolEnv) :
    resultExclusive (solBalanceStep mintAddr env).1 := by
  unfold solBalanceStep
  repeat' split
  all_goals first
    | exact resultExclusive_jfail _ _
    | exact resultExclusive_solMintAccountStep _ _

theorem resultExclusive_solKeyStep (pk : String) (env : SolEnv) (r : MintResult)
    (heq : solKeyStep pk env = some r) : resultExclusive r := by
  unfold solKeyStep at heq
  repeat' split at heq
  all_goals first
    | exact resultExclusive_jfail _ _
    | contradiction
    | (injection heq with h2; rw [← h2]; exact resultExclusive_jfail _ _)

theorem resultExclusive_mintSOL (inp : MintParams) (env : SolEnv) :
    resultExclusive (mintSOL inp env).1 := by
  unfold mintSOL
  repeat' split
  all_goals first
    | exact resultExclusive_jfail _ _
    | exact resultExclusive_solBalanceStep _ _
    | (rename_i heq; exact resultExclusive_solKeyStep _ _ _ heq)

/-! ## Claim theorems -/

/-- C2 counterexample: with `chain = "SOL"` the executor result carries
`success: false`, and because the spread of the result comes after the
`success: true` field in `{ success: true, ...result }`, the 200
response's own `success` reads `false`, not `true` as claimed. -/
theorem dispatcher_outer_success_counterexample :
    (handleMint { chain := JSVal.str "SOL" } demoEnvs).1.status = 200 ∧
    (handleMint { chain := JSVal.str "SOL" } demoEnvs).1.body.success = some false := by
  constructor <;> decide

/-- C2 (amended): the JavaScript spread in `{ success: true, ...result }`
lets the executor result overwrite the literal, so the response body's
`success` always equals the executor's own `success`; a caller parsing
only the outer flag therefore reads the executor's verdict, not a
constant `true`. -/
theorem dispatcher_spread_preserves_success (r : MintResult) :
    (wrap200 r).success = some r.success := rfl

/-- C3: a request whose chain tag uppercases to none of SUI, BSC, BASE,
SOL gets the immediate 400 unsupported-chain response, with no executor
invoked and no network call made. -/
theorem unsupported_chain_immediate_400 (b : ReqBody) (env : Envs) (c : String)
    (hc : b.chain = JSVal.str c)
    (h1 : jsToUpper c ≠ "SUI") (h2 : jsToUpper c ≠ "BSC")
    (h3 : jsToUpper c ≠ "BASE") (h4 : jsToUpper c ≠ "SOL") :
    (handleMint b env).1 =
      ⟨400, { success := some false, msg := some "Unsupported chain" }⟩ ∧
    (handleMint b env).2.1 = [] ∧
    (handleMint b env).2.2 = none := by
  simp [handleMint, hc, h1, h2, h3, h4]

/-- C3 witness: the chain tag "doge" is dispatched to the 400 response. -/
theorem unsupported_chain_immediate_400_witness :
    (handleMint { chain := JSVal.str "doge" } demoEnvs).1 =
      ⟨400, { success := some false, msg := some "Unsupported chain" }⟩ ∧
    (handleMint { chain := JSVal.str "doge" } demoEnvs).2.1 = [] ∧
    (handleMint { chain := JSVal.str "doge" } demoEnvs).2.2 = none :=
  unsupported_chain_immediate_400 _ demoEnvs "doge" rfl
    (by decide) (by decide) (by decide) (by decide)

/-- C10: when the `chain` field is not a string (absent, null, a number,
a boolean or NaN — any value without `toUpperCase`), the dispatcher's
catch converts the `TypeError` into the 500 response
`{ success: false, msg: "Minting error" }`, not the 400
unsupported-chain response. -/
theorem missing_chain_500 (b : ReqBody) (env : Envs)
    (h : ∀ s, b.chain ≠ JSVal.str s) :
    (handleMint b env).1.status = 500 ∧
    (handleMint b env).1.body.success = some false ∧
    (handleMint b env).1.body.msg = some "Minting error" ∧
    (handleMint b env).1.status ≠ 400 := by
  cases hc : b.chain
  case str s => exact absurd hc (h s)
  all_goals simp [handleMint, hc]

/-- C10 witness: a request body with no `chain` field at all is reported
as a 500 server error. -/
theorem missing_chain_500_witness :
    (handleMint { chain := JSVal.undef } demoEnvs).1.status = 500 ∧
    (handleMint { chain := JSVal.undef } demoEnvs).1.body.success = some false ∧
    (handleMint { chain := JSVal.undef } demoEnvs).1.body.msg = some "Minting error" ∧
    (handleMint { chain := JSVal.undef } demoEnvs).1.status ≠ 400 :=
  missing_chain_500 _ demoEnvs (by intro s h; cases h)

/-- C1 counterexample: the result of the dispatcher's SOL branch carries
`success: false` with no `code`, so neither arm of the claimed
exactly-one invariant holds for it. -/
theorem sol_stub_invariant_counterexample :
    solStubResult.success = false ∧ solStubResult.code = none ∧
    ¬ resultExclusive solStubResult := by
  refine ⟨rfl, rfl, ?_⟩
  decide

/-- C1 (amended): every result of the four chain executors satisfies the
exactly-one invariant — success carries a transaction hash, failure
carries a code — but the dispatcher's inline SOL branch violates it: its
failure result has no code. -/
theorem executor_invariant_stub_exception :
    (∀ (inp : SuiParams) (env : SuiEnv), resultExclusive (mintSUI inp env).1) ∧
    (∀ (inp : MintParams) (env : EvmEnv), resultExclusive (mintBASE inp env).1) ∧
    (∀ (inp : MintParams) (env : EvmEnv), resultExclusive (mintBSC inp env).1) ∧
    (∀ (inp : MintParams) (env : SolEnv), resultExclusive (mintSOL inp env).1) ∧
    (solStubResult.success = false ∧ solStubResult.code = none) :=
  ⟨fun _ _ => resultExclusive_mintSUI _ _,
   fun _ _ => resultExclusive_mintBASE _ _,
   fun _ _ => resultExclusive_mintBSC _ _,
   fun _ _ => resultExclusive_mintSOL _ _,
   rfl, rfl⟩

/-- C4 counterexample: mintQuantity "abc" is non-numeric yet truthy, and
the NaN comparison "abc" < 1 is false, so the quantity check does not
reject it: with every other field valid the BASE executor proceeds to the
network (probing every endpoint) instead of returning INVALID_QUANTITY. -/
theorem nonnumeric_quantity_passes_counterexample :
    (mintBASE { demoParams with mintQuantity := JSVal.str "abc" } probeFailEvmEnv).1.code ≠
      some "INVALID_QUANTITY" ∧
    (mintBASE { demoParams with mintQuantity := JSVal.str "abc" } probeFailEvmEnv).1.code =
      some "RPC_CONNECTION_FAILED" ∧
    netEffects (mintBASE { demoParams with mintQuantity := JSVal.str "abc" } probeFailEvmEnv).2 ≠ [] := by
  refine ⟨by decide, by decide, by decide⟩

/-- C4 (amended): when the other required fields are present, a
mintQuantity that is falsy or numerically below 1 — which includes every
number ≤ 0 — is rejected by each executor with INVALID_QUANTITY before any
call is made; non-numeric truthy values such as "abc" pass this check. -/
theorem invalid_quantity_rejected (q : JSVal)
    (hq : jsTruthy q = false ∨ jsNumLt q 1 = true) :
    (∀ z : ℤ, z ≤ 0 → jsTruthy (JSVal.num z) = false ∨ jsNumLt (JSVal.num z) 1 = true) ∧
    (∀ (sp : SuiParams) (env : SuiEnv),
       optTruthy sp.privateKey = true → optTruthy sp.collectionId = true →
       optTruthy sp.mintStage = true → sp.mintQuantity = q →
       mintSUI sp env = (jfail "Mint quantity must be at least 1" "INVALID_QUANTITY", [])) ∧
    (∀ (mp : MintParams) (env : EvmEnv),
       optTruthy mp.privateKey = true → optTruthy mp.contractAddress = true →
       mp.mintQuantity = q →
       mintBASE mp env = (jfail "Mint quantity must be at least 1" "INVALID_QUANTITY", [])) ∧
    (∀ (mp : MintParams) (env : EvmEnv),
       optTruthy mp.privateKey = true → optTruthy mp.contractAddress = true →
       mp.mintQuantity = q →
       mintBSC mp env = (jfail "Mint quantity must be at least 1" "INVALID_QUANTITY", [])) ∧
    (∀ (mp : MintParams) (env : SolEnv),
       optTruthy mp.privateKey = true → optTruthy mp.contractAddress = true →
       mp.mintQuantity = q →
       mintSOL mp env = (jfail "Mint quantity must be at least 1" "INVALID_QUANTITY", [])) := by
  refine ⟨?_, ?_, ?_, ?_, ?_⟩
  · intro z hz
    refine Or.inr ?_
    have hzq : (z : ℚ) ≤ 0 := by exact_mod_cast hz
    simp only [jsNumLt, jsToNumber, decide_eq_true_eq]
    linarith
  · intro sp env h1 h2 h3 h4
    rcases hq with h | h <;> simp [mintSUI, h1, h2, h3, h4, h]
  · intro mp env h1 h2 h3
    rcases hq with h | h <;> simp [mintBASE, h1, h2, h3, h]
  · intro mp env h1 h2 h3
    rcases hq with h | h <;> simp [mintBSC, h1, h2, h3, h]
  · intro mp env h1 h2 h3
    rcases hq with h | h <;> simp [mintSOL, h1, h2, h3, h]

/-- C4 witness: quantity 0 is rejected by all four executors. -/
theorem invalid_quantity_rejected_witness :
    (jsTruthy (JSVal.num 0) = false ∨ jsNumLt (JSVal.num 0) 1 = true) ∧
    mintSUI { demoSuiParams with mintQuantity := JSVal.num 0 } demoSuiEnv =
      (jfail "Mint quantity must be at least 1" "INVALID_QUANTITY", []) ∧
    mintBASE { demoParams with mintQuantity := JSVal.num 0 } demoEvmEnv =
      (jfail "Mint quantity must be at least 1" "INVALID_QUANTITY", []) ∧
    mintBSC { demoParams with mintQuantity := JSVal.num 0 } demoEvmEnv =
      (jfail "Mint quantity must be at least 1" "INVALID_QUANTITY", []) ∧
    mintSOL { demoSolParams with mintQuantity := JSVal.num 0 } demoSolEnv =
      (jfail "Mint quantity must be at least 1" "INVALID_QUANTITY", []) := by
  have h := invalid_quantity_rejected (JSVal.num 0) (Or.inl (by decide))
  exact ⟨Or.inl (by decide),
         h.2.1 _ demoSuiEnv (by decide) (by decide) (by decide) rfl,
         h.2.2.1 _ demoEvmEnv (by decide) (by decide) rfl,
         h.2.2.2.1 _ demoEvmEnv (by decide) (by decide) rfl,
         h.2.2.2.2 _ demoSolEnv (by decide) (by decide) rfl⟩

/-- C5: for each executor with a fallback endpoint list (BASE, BSC, SOL),
when every probe of the statically ordered list fails the executor
returns RPC_CONNECTION_FAILED having performed exactly the probes — so it
never reaches key parsing, the balance check or a submission — and the
connection loop always selects the first endpoint whose probe succeeds. -/
theorem rpc_fallback_behavior :
    (∀ (mp : MintParams) (env : EvmEnv),
       optTruthy mp.privateKey = true → optTruthy mp.contractAddress = true →
       jsTruthy mp.mintQuantity = true → jsNumLt mp.mintQuantity 1 = false →
       env.isAddressOk = true →
       (∀ u ∈ baseRpcUrls, env.probeOk u = false) →
       (mintBASE mp env).1 =
         jfail "Unable to connect to BASE network. All RPC endpoints are down." "RPC_CONNECTION_FAILED" ∧
       (mintBASE mp env).2 = baseRpcUrls.map Effect.probe ∧
       Effect.parseKey ∉ (mintBASE mp env).2 ∧
       Effect.getBalance ∉ (mintBASE mp env).2 ∧
       (∀ e ∈ (mintBASE mp env).2, Effect.isSubmit e = false)) ∧
    (∀ (mp : MintParams) (env : EvmEnv),
       optTruthy mp.privateKey = true → optTruthy mp.contractAddress = true →
       jsTruthy mp.mintQuantity = true → jsNumLt mp.mintQuantity 1 = false →
       env.isAddressOk = true →
       (∀ u ∈ bscRpcUrls, env.probeOk u = false) →
       (mintBSC mp env).1 =
         jfail "Unable to connect to BSC network. All RPC endpoints are down." "RPC_CONNECTION_FAILED" ∧
       (mintBSC mp env).2 = bscRpcUrls.map Effect.probe ∧
       Effect.parseKey ∉ (mintBSC mp env).2 ∧
       Effect.getBalance ∉ (mintBSC mp env).2 ∧
       (∀ e ∈ (mintBSC mp env).2, Effect.isSubmit e = false)) ∧
    (∀ (mp : MintParams) (env : SolEnv),
       optTruthy mp.privateKey = true → optTruthy mp.contractAddress = true →
       jsTruthy mp.mintQuantity = true → jsNumLt mp.mintQuantity 1 = false →
       (∀ u ∈ solRpcUrls, env.probeOk u = false) →
       (mintSOL mp env).1 =
         jfail "Unable to connect to Solana network. All RPC endpoints are down." "RPC_CONNECTION_FAILED" ∧
       (mintSOL mp env).2 = solRpcUrls.map Effect.probe ∧
       Effect.parseKey ∉ (mintSOL mp env).2 ∧
       Effect.getBalance ∉ (mintSOL mp env).2 ∧
       (∀ e ∈ (mintSOL mp env).2, Effect.isSubmit e = false)) ∧
    (∀ (ok : String → Bool) (u : String) (pre post : List String),
       (∀ v ∈ pre, ok v = false) → ok u = true →
       (firstProbe ok (pre ++ u :: post)).1 = some u) := by
  refine ⟨?_, ?_, ?_, ?_⟩
  · intro mp env h1 h2 h3 h4 h5 hall
    have hfp := firstProbe_all_fail env.probeOk baseRpcUrls hall
    have hrun : mintBASE mp env =
        (jfail "Unable to connect to BASE network. All RPC endpoints are down." "RPC_CONNECTION_FAILED",
         baseRpcUrls.map Effect.probe) := by
      simp [mintBASE, h1, h2, h3, h4, h5, hfp]
    rw [hrun]
    exact ⟨rfl, rfl, by decide, by decide, by decide⟩
  · intro mp env h1 h2 h3 h4 h5 hall
    have hfp := firstProbe_all_fail env.probeOk bscRpcUrls hall
    have hrun : mintBSC mp env =
        (jfail "Unable to connect to BSC network. All RPC endpoints are down." "RPC_CONNECTION_FAILED",
         bscRpcUrls.map Effect.probe) := by
      simp [mintBSC, h1, h2, h3, h4, h5, hfp]
    rw [hrun]
    exact ⟨rfl, rfl, by decide, by decide, by decide⟩
  · intro mp env h1 h2 h3 h4 hall
    have hfp := firstProbe_all_fail env.probeOk solRpcUrls hall
    have hrun : mintSOL mp env =
        (jfail "Unable to connect to Solana network. All RPC endpoints are down." "RPC_CONNECTION_FAILED",
         solRpcUrls.map Effect.probe) := by
      simp [mintSOL, h1, h2, h3, h4, hfp]
    rw [hrun]
    exact ⟨rfl, rfl, by decide, by decide, by decide⟩
  · intro ok u pre post hpre hu
    rw [firstProbe_first_success ok u pre post hpre hu]

/-- C5 witness: with all probes failing the BASE, BSC and SOL executors
return the connectivity failure, and with the first endpoint failing and
the second answering, the second is selected. -/
theorem rpc_fallback_behavior_witness :
    (mintBASE demoParams probeFailEvmEnv).1 =
      jfail "Unable to connect to BASE network. All RPC endpoints are down." "RPC_CONNECTION_FAILED" ∧
    (mintBSC demoParams probeFailEvmEnv).1 =
      jfail "Unable to connect to BSC network. All RPC endpoints are down." "RPC_CONNECTION_FAILED" ∧
    (mintSOL demoSolParams probeFailSolEnv).1 =
      jfail "Unable to connect to Solana network. All RPC endpoints are down." "RPC_CONNECTION_FAILED" ∧
    (firstProbe (fun u => u == "https://mainnet.base.org/") baseRpcUrls).1 =
      some "https://mainnet.base.org/" := by
  have h := rpc_fallback_behavior
  refine ⟨(h.1 demoParams probeFailEvmEnv (by decide) (by decide) (by decide) (by decide)
            (by decide) (by decide)).1,
          (h.2.1 demoParams probeFailEvmEnv (by decide) (by decide) (by decide) (by decide)
            (by decide) (by decide)).1,
          (h.2.2.1 demoSolParams probeFailSolEnv (by decide) (by decide) (by decide) (by decide)
            (by decide)).1,
          h.2.2.2 (fun u => u == "https://mainnet.base.org/") "https://mainnet.base.org/"
            ["https://base.drpc.org/"] ["https://base-mainnet.public.blastapi.io"]
            (by decide) (by decide)⟩

/-- C8: each executor with a balance precheck (BASE, BSC, SOL) rejects a
funding account whose balance is below the chain-specific minimum (0.001
ETH, 0.005 BNB, 0.01 SOL) with an INSUFFICIENT_BALANCE failure whose
message holds the formatted current and minimum balances, before any
transaction is submitted. -/
theorem low_balance_precondition :
    (∀ (mp : MintParams) (env : EvmEnv) (u : String) (ptr : List Effect) (wei : ℤ),
       optTruthy mp.privateKey = true → optTruthy mp.contractAddress = true →
       jsTruthy mp.mintQuantity = true → jsNumLt mp.mintQuantity 1 = false →
       env.isAddressOk = true →
       firstProbe env.probeOk baseRpcUrls = (some u, ptr) →
       env.walletOk = true →
       env.getBalance = Except.ok wei →
       Rat.divInt wei (10 ^ 18) < mkRat 1 1000 →
       (mintBASE mp env).1 =
         jfail ("Insufficient balance. Current: " ++ toFixed4 (Rat.divInt wei (10 ^ 18)) ++
                " ETH. Minimum required: 0.001 ETH") "INSUFFICIENT_BALANCE" ∧
       (∀ e ∈ (mintBASE mp env).2, Effect.isSubmit e = false)) ∧
    (∀ (mp : MintParams) (env : EvmEnv) (u : String) (ptr : List Effect) (wei : ℤ),
       optTruthy mp.privateKey = true → optTruthy mp.contractAddress = true →
       jsTruthy mp.mintQuantity = true → jsNumLt mp.mintQuantity 1 = false →
       env.isAddressOk = true →
       firstProbe env.probeOk bscRpcUrls = (some u, ptr) →
       env.walletOk = true →
       env.getBalance = Except.ok wei →
       Rat.divInt wei (10 ^ 18) < mkRat 5 1000 →
       (mintBSC mp env).1 =
         jfail ("Insufficient BNB balance. Current: " ++ toFixed4 (Rat.divInt wei (10 ^ 18)) ++
                " BNB. Minimum required: 0.005 BNB") "INSUFFICIENT_BALANCE" ∧
       (∀ e ∈ (mintBSC mp env).2, Effect.isSubmit e = false)) ∧
    (∀ (mp : MintParams) (env : SolEnv) (u : String) (ptr : List Effect) (lam : ℤ),
       optTruthy mp.privateKey = true → optTruthy mp.contractAddress = true →
       jsTruthy mp.mintQuantity = true → jsNumLt mp.mintQuantity 1 = false →
       firstProbe env.probeOk solRpcUrls = (some u, ptr) →
       solKeyStep (mp.privateKey.getD "") env = none →
       env.publicKeyOk = true →
       env.getBalance = Except.ok lam →
       Rat.divInt lam (10 ^ 9) < mkRat 1 100 →
       (mintSOL mp env).1 =
         jfail ("Insufficient SOL balance. Current: " ++ toFixed4 (Rat.divInt lam (10 ^ 9)) ++
                " SOL. Minimum required: 0.01 SOL") "INSUFFICIENT_BALANCE" ∧
       (∀ e ∈ (mintSOL mp env).2, Effect.isSubmit e = false)) := by
  refine ⟨?_, ?_, ?_⟩
  · intro mp env u ptr wei h1 h2 h3 h4 h5 hfp h6 hbal hlow
    have hlit : (1000000000000000000 : ℤ) = 10 ^ 18 := by norm_num
    have hlow2 : Rat.divInt wei 1000000000000000000 < mkRat 1 1000 := by rw [hlit]; exact hlow
    have hrun : mintBASE mp env =
        (jfail ("Insufficient balance. Current: " ++ toFixed4 (Rat.divInt wei (10 ^ 18)) ++
                " ETH. Minimum required: 0.001 ETH") "INSUFFICIENT_BALANCE",
         ptr ++ [Effect.parseKey, Effect.getBalance]) := by
      simp [mintBASE, h1, h2, h3, h4, h5, hfp, h6, hbal, hlow, hlow2]
    rw [hrun]
    refine ⟨rfl, ?_⟩
    intro e he
    simp at he
    rcases he with he | he | he
    · have hptr : (firstProbe env.probeOk baseRpcUrls).2 = ptr := by rw [hfp]
      rcases firstProbe_trace_probes env.probeOk baseRpcUrls e (by rw [hptr]; exact he) with ⟨v, hv⟩
      exact probe_not_submit e v hv
    · rw [he]; rfl
    · rw [he]; rfl
  · intro mp env u ptr wei h1 h2 h3 h4 h5 hfp h6 hbal hlow
    have hlit : (1000000000000000000 : ℤ) = 10 ^ 18 := by norm_num
    have hlow2 : Rat.divInt wei 1000000000000000000 < mkRat 5 1000 := by rw [hlit]; exact hlow
    have hrun : mintBSC mp env =
        (jfail ("Insufficient BNB balance. Current: " ++ toFixed4 (Rat.divInt wei (10 ^ 18)) ++
                " BNB. Minimum required: 0.005 BNB") "INSUFFICIENT_BALANCE",
         ptr ++ [Effect.parseKey, Effect.getBalance]) := by
      simp [mintBSC, h1, h2, h3, h4, h5, hfp, h6, hbal, hlow, hlow2]
    rw [hrun]
    refine ⟨rfl, ?_⟩
    intro e he
    simp at he
    rcases he with he | he | he
    · have hptr : (firstProbe env.probeOk bscRpcUrls).2 = ptr := by rw [hfp]
      rcases firstProbe_trace_probes env.probeOk bscRpcUrls e (by rw [hptr]; exact he) with ⟨v, hv⟩
      exact probe_not_submit e v hv
    · rw [he]; rfl
    · rw [he]; rfl
  · intro mp env u ptr lam h1 h2 h3 h4 hfp hkey hpub hbal hlow
    have hlit : (1000000000 : ℤ) = 10 ^ 9 := by norm_num
    have hlow2 : Rat.divInt lam 1000000000 < mkRat 1 100 := by rw [hlit]; exact hlow
    have hrun : mintSOL mp env =
        (jfail ("Insufficient SOL balance. Current: " ++ toFixed4 (Rat.divInt lam (10 ^ 9)) ++
                " SOL. Minimum required: 0.01 SOL") "INSUFFICIENT_BALANCE",
         ptr ++ [Effect.parseKey] ++ [Effect.getBalance]) := by
      simp [mintSOL, solBalanceStep, h1, h2, h3, h4, hfp, hkey, hpub, hbal, hlow, hlow2]
    rw [hrun]
    refine ⟨rfl, ?_⟩
    intro e he
    simp at he
    rcases he with he | he | he
    · have hptr : (firstProbe env.probeOk solRpcUrls).2 = ptr := by rw [hfp]
      rcases firstProbe_trace_probes env.probeOk solRpcUrls e (by rw [hptr]; exact he) with ⟨v, hv⟩
      exact probe_not_submit e v hv
    · rw [he]; rfl
    · rw [he]; rfl

/-- C8 witness: a 1000-wei (respectively 1000-lamport) balance trips the
precheck of all three executors, with the formatted balances in the
message. -/
theorem low_balance_precondition_witness :
    (mintBASE demoParams lowBalEvmEnv).1 =
      jfail ("Insufficient balance. Current: " ++ toFixed4 (Rat.divInt 1000 (10 ^ 18)) ++
             " ETH. Minimum required: 0.001 ETH") "INSUFFICIENT_BALANCE" ∧
    (mintBSC demoParams lowBalEvmEnv).1 =
      jfail ("Insufficient BNB balance. Current: " ++ toFixed4 (Rat.divInt 1000 (10 ^ 18)) ++
             " BNB. Minimum required: 0.005 BNB") "INSUFFICIENT_BALANCE" ∧
    (mintSOL demoSolParams lowBalSolEnv).1 =
      jfail ("Insufficient SOL balance. Current: " ++ toFixed4 (Rat.divInt 1000 (10 ^ 9)) ++
             " SOL. Minimum required: 0.01 SOL") "INSUFFICIENT_BALANCE" := by
  have h := low_balance_precondition
  refine ⟨(h.1 demoParams lowBalEvmEnv "https://base.drpc.org/"
             [Effect.probe "https://base.drpc.org/"] 1000
             (by decide) (by decide) (by decide) (by decide) (by decide)
             (by decide) (by decide) rfl (by decide)).1,
          (h.2.1 demoParams lowBalEvmEnv "https://bsc-dataseed.binance.org/"
             [Effect.probe "https://bsc-dataseed.binance.org/"] 1000
             (by decide) (by decide) (by decide) (by decide) (by decide)
             (by decide) (by decide) rfl (by decide)).1,
          (h.2.2 demoSolParams lowBalSolEnv "https://api.mainnet-beta.solana.com"
             [Effect.probe "https://api.mainnet-beta.solana.com"] 1000
             (by decide) (by decide) (by decide) (by decide) (by decide)
             (by decide) (by decide) rfl (by decide)).1⟩

/-- C9: the SOL private-key parser accepts exactly the three encodings of
the source — a bracketed JSON array, a 128-character hex string and an
88-character base58 string. Any other shape yields the local
INVALID_PRIVATE_KEY_FORMAT failure, and a decoded key that is not 64
bytes yields the local INVALID_PRIVATE_KEY_LENGTH failure; in each case
the trace ends at the local key-parsing step, with no network interaction
after the connection probes. -/
theorem sol_key_parser_encodings :
    ∀ (mp : MintParams) (env : SolEnv) (u : String) (ptr : List Effect) (pk : String),
      optTruthy mp.privateKey = true → optTruthy mp.contractAddress = true →
      jsTruthy mp.mintQuantity = true → jsNumLt mp.mintQuantity 1 = false →
      firstProbe env.probeOk solRpcUrls = (some u, ptr) →
      mp.privateKey = some pk →
      (((strStartsWith pk "[" && strEndsWith pk "]") = false → pk.length ≠ 128 → pk.length ≠ 88 →
         mintSOL mp env =
           (jfail "Invalid private key format. Use base58, hex, or array format."
              "INVALID_PRIVATE_KEY_FORMAT", ptr ++ [Effect.parseKey])) ∧
       ((strStartsWith pk "[" && strEndsWith pk "]") = true →
         ∀ n, env.jsonParse = Except.ok n → n ≠ 64 →
         mintSOL mp env =
           (jfail "Private key must be 64 bytes long" "INVALID_PRIVATE_KEY_LENGTH",
            ptr ++ [Effect.parseKey])) ∧
       ((strStartsWith pk "[" && strEndsWith pk "]") = false → pk.length = 128 →
         env.hexDecodeLen ≠ 64 →
         mintSOL mp env =
           (jfail "Private key must be 64 bytes long" "INVALID_PRIVATE_KEY_LENGTH",
            ptr ++ [Effect.parseKey])) ∧
       ((strStartsWith pk "[" && strEndsWith pk "]") = false → pk.length ≠ 128 → pk.length = 88 →
         ∀ n, env.b58Decode = Except.ok n → n ≠ 64 →
         mintSOL mp env =
           (jfail "Private key must be 64 bytes long" "INVALID_PRIVATE_KEY_LENGTH",
            ptr ++ [Effect.parseKey]))) := by
  intro mp env u ptr pk h1 h2 h3 h4 hfp hpk
  have hpk2 : mp.privateKey.getD "" = pk := by rw [hpk]; rfl
  refine ⟨?_, ?_, ?_, ?_⟩
  · intro ha hb hc
    have hsk : solSecretKeyLen pk env = Except.error SolKeyFail.badFormat := by
      simp [solSecretKeyLen, ha, hb, hc]
    have hks : solKeyStep pk env =
        some (jfail "Invalid private key format. Use base58, hex, or array format."
          "INVALID_PRIVATE_KEY_FORMAT") := by
      simp [solKeyStep, hsk]
    simp [mintSOL, h1, h2, h3, h4, hfp, hpk2, hks]
  · intro ha n hn hn64
    have hsk : solSecretKeyLen pk env = Except.ok n := by
      simp [solSecretKeyLen, ha, hn]
    have hks : solKeyStep pk env =
        some (jfail "Private key must be 64 bytes long" "INVALID_PRIVATE_KEY_LENGTH") := by
      simp [solKeyStep, hsk, hn64]
    simp [mintSOL, h1, h2, h3, h4, hfp, hpk2, hks]
  · intro ha hb hhex
    have hsk : solSecretKeyLen pk env = Except.ok env.hexDecodeLen := by
      simp [solSecretKeyLen, ha, hb]
    have hks : solKeyStep pk env =
        some (jfail "Private key must be 64 bytes long" "INVALID_PRIVATE_KEY_LENGTH") := by
      simp [solKeyStep, hsk, hhex]
    simp [mintSOL, h1, h2, h3, h4, hfp, hpk2, hks]
  · intro ha hb hc n hn hn64
    have hsk : solSecretKeyLen pk env = Except.ok n := by
      simp [solSecretKeyLen, ha, hb, hc, hn]
    have hks : solKeyStep pk env =
        some (jfail "Private key must be 64 bytes long" "INVALID_PRIVATE_KEY_LENGTH") := by
      simp [solKeyStep, hsk, hn64]
    simp [mintSOL, h1, h2, h3, h4, hfp, hpk2, hks]

/-- C9 witness: a 64-character key matches no encoding and is a format
failure; a bracketed array decoding to 3 bytes, a 128-character hex key
decoding to 10 bytes, and an 88-character base58 key decoding to 65 bytes
are all length failures, each with the trace stopping at the local parse
step. -/
theorem sol_key_parser_encodings_witness :
    (mintSOL demoParams demoSolEnv =
      (jfail "Invalid private key format. Use base58, hex, or array format."
         "INVALID_PRIVATE_KEY_FORMAT",
       [Effect.probe "https://api.mainnet-beta.solana.com", Effect.parseKey])) ∧
    (mintSOL { demoParams with privateKey := some "[1,2,3]" }
        { demoSolEnv with jsonParse := Except.ok 3 } =
      (jfail "Private key must be 64 bytes long" "INVALID_PRIVATE_KEY_LENGTH",
       [Effect.probe "https://api.mainnet-beta.solana.com", Effect.parseKey])) ∧
    (mintSOL demoSolParams { demoSolEnv with hexDecodeLen := 10 } =
      (jfail "Private key must be 64 bytes long" "INVALID_PRIVATE_KEY_LENGTH",
       [Effect.probe "https://api.mainnet-beta.solana.com", Effect.parseKey])) ∧
    (mintSOL { demoParams with privateKey := some (String.mk (List.replicate 88 (Char.ofNat 122))) }
        { demoSolEnv with b58Decode := Except.ok 65 } =
      (jfail "Private key must be 64 bytes long" "INVALID_PRIVATE_KEY_LENGTH",
       [Effect.probe "https://api.mainnet-beta.solana.com", Effect.parseKey])) := by
  refine ⟨?_, ?_, ?_, ?_⟩
  · exact ((sol_key_parser_encodings demoParams demoSolEnv
      "https://api.mainnet-beta.solana.com" [Effect.probe "https://api.mainnet-beta.solana.com"]
      "0f0f0f0f0f0f0f0f0f0f0f0f0f0f0f0f0f0f0f0f0f0f0f0f0f0f0f0f0f0f0f0f"
      (by decide) (by decide) (by decide) (by decide) (by decide) rfl).1
      (by decide) (by decide) (by decide))
  · exact ((sol_key_parser_encodings { demoParams with privateKey := some "[1,2,3]" }
      { demoSolEnv with jsonParse := Except.ok 3 }
      "https://api.mainnet-beta.solana.com" [Effect.probe "https://api.mainnet-beta.solana.com"]
      "[1,2,3]"
      (by decide) (by decide) (by decide) (by decide) (by decide) rfl).2.1
      (by decide) 3 rfl (by decide))
  · exact ((sol_key_parser_encodings demoSolParams { demoSolEnv with hexDecodeLen := 10 }
      "https://api.mainnet-beta.solana.com" [Effect.probe "https://api.mainnet-beta.solana.com"]
      pk128
      (by decide) (by decide) (by decide) (by decide) (by decide) rfl).2.2.1
      (by decide) (by decide) (by decide))
  · exact ((sol_key_parser_encodings
      { demoParams with privateKey := some (String.mk (List.replicate 88 (Char.ofNat 122))) }
      { demoSolEnv with b58Decode := Except.ok 65 }
      "https://api.mainnet-beta.solana.com" [Effect.probe "https://api.mainnet-beta.solana.com"]
      (String.mk (List.replicate 88 (Char.ofNat 122)))
      (by decide) (by decide) (by decide) (by decide) (by decide) rfl).2.2.2
      (by decide) (by decide) (by decide) 65 rfl (by decide))

/-- C6 counterexample: in a SOL run where the transaction was submitted
(the send returned the signature "Sig111") and the confirmation wait
timed out, the result is the Timeout-kind TRANSACTION_TIMEOUT — but it
carries no transaction hash at all, contradicting the claim that every
executor's timeout result still carries the hash obtained at submission
time. -/
theorem sol_timeout_hash_counterexample :
    (mintSOL demoSolParams timeoutSolEnv).1.code = some "TRANSACTION_TIMEOUT" ∧
    (mintSOL demoSolParams timeoutSolEnv).1.txHash = none ∧
    (mintSOL demoSolParams timeoutSolEnv).1.transactionHash = none ∧
    (mintSOL demoSolParams timeoutSolEnv).1.signature = none ∧
    timeoutSolEnv.sendRawTx = Except.ok "Sig111" := by
  refine ⟨by decide, by decide, by decide, by decide, rfl⟩

/-- C6 (amended): when the confirmation wait of a submitted transaction
does not resolve within the 300-second timeout, the EVM executors (BASE,
BSC) return CONFIRMATION_TIMEOUT still carrying the transaction hash
obtained at submission time, while the SOL executor returns the
Timeout-kind TRANSACTION_TIMEOUT (distinct from the definite
TRANSACTION_FAILED) without the transaction hash. -/
theorem confirmation_timeout_results :
    (∀ (mp : MintParams) (env : EvmEnv) (u : String) (ptr : List Effect) (wei : ℤ)
       (code : String) (h : String) (le : Option JsError) (ltr : List Effect),
       optTruthy mp.privateKey = true → optTruthy mp.contractAddress = true →
       jsTruthy mp.mintQuantity = true → jsNumLt mp.mintQuantity 1 = false →
       env.isAddressOk = true →
       firstProbe env.probeOk baseRpcUrls = (some u, ptr) →
       env.walletOk = true →
       env.getBalance = Except.ok wei →
       ¬(Rat.divInt wei (10 ^ 18) < mkRat 1 1000) →
       env.contractOk = true →
       env.getCode = Except.ok code → code ≠ "0x" →
       mintLoop (baseTryCand env) baseCands none = (some h, le, ltr) →
       env.confirm = ConfirmOutcome.timedOut →
       (mintBASE mp env).1 =
         { success := false
           msg := some "Transaction sent but confirmation timed out. Check transaction status manually."
           code := some "CONFIRMATION_TIMEOUT"
           txHash := some h }) ∧
    (∀ (mp : MintParams) (env : EvmEnv) (u : String) (ptr : List Effect) (wei : ℤ)
       (code : String) (h : String) (le : Option JsError) (ltr : List Effect),
       optTruthy mp.privateKey = true → optTruthy mp.contractAddress = true →
       jsTruthy mp.mintQuantity = true → jsNumLt mp.mintQuantity 1 = false →
       env.isAddressOk = true →
       firstProbe env.probeOk bscRpcUrls = (some u, ptr) →
       env.walletOk = true →
       env.getBalance = Except.ok wei →
       ¬(Rat.divInt wei (10 ^ 18) < mkRat 5 1000) →
       env.contractOk = true →
       env.getCode = Except.ok code → code ≠ "0x" →
       mintLoop (bscTryCand env (bscResolvedGasPrice env)) bscCands none = (some h, le, ltr) →
       env.confirm = ConfirmOutcome.timedOut →
       (mintBSC mp env).1 =
         { success := false
           msg := some "Transaction sent but confirmation timed out. Check transaction status manually."
           code := some "CONFIRMATION_TIMEOUT"
           txHash := some h }) ∧
    (∀ (mp : MintParams) (env : SolEnv) (u : String) (ptr : List Effect) (lam : ℤ)
       (ai : Option SolAccountInfo) (bh sig : String),
       optTruthy mp.privateKey = true → optTruthy mp.contractAddress = true →
       jsTruthy mp.mintQuantity = true → jsNumLt mp.mintQuantity 1 = false →
       firstProbe env.probeOk solRpcUrls = (some u, ptr) →
       solKeyStep (mp.privateKey.getD "") env = none →
       env.publicKeyOk = true →
       env.getBalance = Except.ok lam →
       ¬(Rat.divInt lam (10 ^ 9) < mkRat 1 100) →
       env.getMintAccountInfo = Except.ok (some { owner := tokenProgramId }) →
       env.getAtaAccountInfo = Except.ok ai →
       env.latestBlockhash = Except.ok bh →
       env.sendRawTx = Except.ok sig →
       env.confirm = SolConfirmOutcome.timedOut →
       (mintSOL mp env).1 =
         jfail "Transaction timed out. It may still be processing." "TRANSACTION_TIMEOUT" ∧
       (mintSOL mp env).1.txHash = none ∧ (mintSOL mp env).1.signature = none) := by
  refine ⟨?_, ?_, ?_⟩
  · intro mp env u ptr wei code h le ltr h1 h2 h3 h4 h5 hfp h6 hbal hhigh hcon hcode hc0 hloop hconf
    have hlit : (1000000000000000000 : ℤ) = 10 ^ 18 := by norm_num
    have hhigh2 : ¬(Rat.divInt wei 1000000000000000000 < mkRat 1 1000) := by rw [hlit]; exact hhigh
    simp [mintBASE, h1, h2, h3, h4, h5, hfp, h6, hbal, hhigh, hhigh2, hcon, hcode, hc0,
          hloop, hconf, evmConfirm]
  · intro mp env u ptr wei code h le ltr h1 h2 h3 h4 h5 hfp h6 hbal hhigh hcon hcode hc0 hloop hconf
    have hlit : (1000000000000000000 : ℤ) = 10 ^ 18 := by norm_num
    have hhigh2 : ¬(Rat.divInt wei 1000000000000000000 < mkRat 5 1000) := by rw [hlit]; exact hhigh
    simp [mintBSC, h1, h2, h3, h4, h5, hfp, h6, hbal, hhigh, hhigh2, hcon, hcode, hc0,
          hloop, hconf, evmConfirm]
  · intro mp env u ptr lam ai bh sig h1 h2 h3 h4 hfp hkey hpub hbal hhigh hmint hata hbh hsend hconf
    have hlit : (1000000000 : ℤ) = 10 ^ 9 := by norm_num
    have hhigh2 : ¬(Rat.divInt lam 1000000000 < mkRat 1 100) := by rw [hlit]; exact hhigh
    have hcatch : solTxCatch { message := "Transaction confirmation timeout" } =
        jfail "Transaction timed out. It may still be processing." "TRANSACTION_TIMEOUT" := by
      decide
    have hrun : (mintSOL mp env).1 =
        jfail "Transaction timed out. It may still be processing." "TRANSACTION_TIMEOUT" := by
      simp [mintSOL, solBalanceStep, solMintAccountStep, solTxSection, h1, h2, h3, h4, hfp,
            hkey, hpub, hbal, hhigh, hhigh2, hmint, hata, hbh, hsend, hconf, hcatch]
    exact ⟨hrun, by rw [hrun]; rfl, by rw [hrun]; rfl⟩

/-- C6 witness: concrete runs in which the wait times out after a
successful submission: BASE and BSC return CONFIRMATION_TIMEOUT with the
submitted hash, SOL returns TRANSACTION_TIMEOUT without one. -/
theorem confirmation_timeout_results_witness :
    (mintBASE demoParams timeoutEvmEnv).1 =
      { success := false
        msg := some "Transaction sent but confirmation timed out. Check transaction status manually."
        code := some "CONFIRMATION_TIMEOUT"
        txHash := some "0xhash" } ∧
    (mintBSC demoParams timeoutEvmEnv).1 =
      { success := false
        msg := some "Transaction sent but confirmation timed out. Check transaction status manually."
        code := some "CONFIRMATION_TIMEOUT"
        txHash := some "0xhash" } ∧
    (mintSOL demoSolParams timeoutSolEnv).1 =
      jfail "Transaction timed out. It may still be processing." "TRANSACTION_TIMEOUT" := by
  have h := confirmation_timeout_results
  refine ⟨h.1 demoParams timeoutEvmEnv "https://base.drpc.org/"
            [Effect.probe "https://base.drpc.org/"] 1000000000000000000 "0x6080" "0xhash" none
            [Effect.estimateGas 0, Effect.sendTx 0 500000 20000000000]
            (by decide) (by decide) (by decide) (by decide) (by decide) (by decide)
            (by decide) rfl (by decide) (by decide) rfl (by decide) (by decide) rfl,
          h.2.1 demoParams timeoutEvmEnv "https://bsc-dataseed.binance.org/"
            [Effect.probe "https://bsc-dataseed.binance.org/"] 1000000000000000000 "0x6080" "0xhash" none
            [Effect.estimateGas 0, Effect.sendTx 0 150000 3000000000]
            (by decide) (by decide) (by decide) (by decide) (by decide) (by decide)
            (by decide) rfl (by decide) (by decide) rfl (by decide) (by decide) rfl,
          (h.2.2 demoSolParams timeoutSolEnv "https://api.mainnet-beta.solana.com"
            [Effect.probe "https://api.mainnet-beta.solana.com"] 1000000000
            (some { owner := tokenProgramId }) "Bh111" "Sig111"
            (by decide) (by decide) (by decide) (by decide) (by decide) (by decide)
            (by decide) rfl (by decide) rfl rfl rfl rfl rfl).1⟩

/-- C7 counterexample: in a BASE run in which every gas estimation
throws, the executor performs no fallback-budget submission at all — it
skips every candidate and returns MINT_FUNCTION_FAILED with no send in
its trace — contradicting the claim that, for both EVM executors, a
fixed fallback budget is submitted when estimation fails. -/
theorem base_estimation_failure_no_fallback_counterexample :
    (mintBASE demoParams estFailEvmEnv).1 =
      jfail "No compatible mint function found or all mint attempts failed" "MINT_FUNCTION_FAILED" ∧
    ((mintBASE demoParams estFailEvmEnv).2.all fun e => !Effect.isSubmit e) = true := by
  exact ⟨by decide, by decide⟩

/-- C7 (amended): the BSC handler submits with gas budget
`estimate + 50000` after a successful estimation, retries the same
candidate with the fixed 300000 budget when the estimate or that first
send throws, and uses the fixed 5-gwei gas price whenever fee data is
unavailable. The BASE handler instead submits every candidate with the
fixed 500000 budget and fixed 20-gwei price — a send only happens after
a successful estimation, and a candidate whose estimation fails is
skipped with no fallback submission. -/
theorem evm_gas_policy :
    (∀ (env : EvmEnv) (gp : ℤ) (c : MintCand) (i : ℕ) (g p : ℤ),
       Effect.sendTx i g p ∈ (bscTryCand env gp c).2 →
       p = gp ∧ (g = bscFixedGasLimit ∨
                 ∃ est, env.estimateGas c.idx = Except.ok est ∧ g = est + 50000)) ∧
    (∀ env : EvmEnv,
       env.getFeeData = Except.ok none ∨ env.getFeeData = Except.ok (some 0) ∨
         (∃ e, env.getFeeData = Except.error e) →
       bscResolvedGasPrice env = bscFallbackGasPrice) ∧
    (∀ (env : EvmEnv) (c : MintCand) (i : ℕ) (g p : ℤ),
       Effect.sendTx i g p ∈ (baseTryCand env c).2 →
       g = baseGasLimit ∧ p = baseGasPrice ∧ ∃ est, env.estimateGas c.idx = Except.ok est) ∧
    (∀ (env : EvmEnv) (c : MintCand) (e : JsError),
       env.estimateGas c.idx = Except.error e →
       ((baseTryCand env c).2.all fun x => !Effect.isSubmit x) = true ∧
       ∀ h, (baseTryCand env c).1 ≠ CandOutcome.sent h) := by
  refine ⟨?_, ?_, ?_, ?_⟩
  · intro env gp c i g p hmem
    unfold bscTryCand at hmem
    repeat' split at hmem
    all_goals simp at hmem
    all_goals first
      | (rcases hmem with ⟨hi, hg, hp⟩ | ⟨hi, hg, hp⟩ <;>
          first
            | exact ⟨hp, Or.inr ⟨_, by assumption, hg⟩⟩
            | exact ⟨hp, Or.inl hg⟩)
      | (obtain ⟨hi, hg, hp⟩ := hmem
         first
           | exact ⟨hp, Or.inr ⟨_, by assumption, hg⟩⟩
           | exact ⟨hp, Or.inl hg⟩)
  · intro env hfd
    rcases hfd with h | h | ⟨e, h⟩ <;> simp [bscResolvedGasPrice, h]
  · intro env c i g p hmem
    unfold baseTryCand at hmem
    repeat' split at hmem
    all_goals simp at hmem
    all_goals obtain ⟨hi, hg, hp⟩ := hmem
    all_goals exact ⟨hg, hp, _, by assumption⟩
  · intro env c e hest
    by_cases hf : env.funcExists c.name
    · have hcc : baseTryCand env c = (CandOutcome.estFailed, [Effect.estimateGas c.idx]) := by
        simp [baseTryCand, hf, hest]
      rw [hcc]
      exact ⟨by simp [Effect.isSubmit], by intro h hcontra; cases hcontra⟩
    · have hcc : baseTryCand env c = (CandOutcome.absent, []) := by
        simp [baseTryCand, hf]
      rw [hcc]
      exact ⟨rfl, by intro h hcontra; cases hcontra⟩

/-- C7 witness: a concrete BSC candidate submits with 100000 + 50000 gas
at the resolved price; fee data reporting null resolves to the 5-gwei
fallback; a concrete BASE candidate submits with the fixed 500000 gas and
20-gwei price; and with estimation failing, the BASE candidate performs
no submission. -/
theorem evm_gas_policy_witness :
    ((3000000000 : ℤ) = 3000000000 ∧
       ((150000 : ℤ) = bscFixedGasLimit ∨
        ∃ est, demoEvmEnv.estimateGas 0 = Except.ok est ∧ (150000 : ℤ) = est + 50000)) ∧
    bscResolvedGasPrice { demoEvmEnv with getFeeData := Except.ok none } = bscFallbackGasPrice ∧
    ((500000 : ℤ) = baseGasLimit ∧ (20000000000 : ℤ) = baseGasPrice ∧
       ∃ est, demoEvmEnv.estimateGas 0 = Except.ok est) ∧
    (((baseTryCand estFailEvmEnv ⟨0, "mint"⟩).2.all fun x => !Effect.isSubmit x) = true ∧
       ∀ h, (baseTryCand estFailEvmEnv ⟨0, "mint"⟩).1 ≠ CandOutcome.sent h) := by
  have h := evm_gas_policy
  refine ⟨h.1 demoEvmEnv 3000000000 ⟨0, "mint"⟩ 0 150000 3000000000 (by decide),
          h.2.1 { demoEvmEnv with getFeeData := Except.ok none } (Or.inl rfl),
          h.2.2.1 demoEvmEnv ⟨0, "mint"⟩ 0 500000 20000000000 (by decide),
          h.2.2.2 estFailEvmEnv ⟨0, "mint"⟩ { message := "gas estimation failed" } rfl⟩

end SniperBot
